import Mathlib

/-!
Verification of the DOCX diagnostic engine (src/scripts/docx_diagnostic.py).

This file shallowly embeds the engine: the `DocxDiagnostic` pipeline
(`run_all_checks`, the structural checks, the semantic checks over the parsed
document tree, the relationship validator, the embedded-object scanner, and
`get_summary`) as pure Lean functions, and proves the frozen claims about it.

Modelling conventions:
* Bytes are `List Nat` (each < 256); decoded text is a `List Nat` of
  codepoints.  UTF-8 decoding (Python `bytes.decode("utf-8")`) is implemented
  concretely; on failure it returns the index of the first byte of the
  invalid sequence, matching `UnicodeDecodeError.start`.
* The filesystem and `zipfile` library are modelled as an input record
  (`PackageInput`): whether the path exists, is a regular file, its size, and
  the outcome of opening the archive (entries plus `testzip` result, or a
  raised error).
* `xml.etree.ElementTree.fromstring` is an external library; it is modelled
  as a parse oracle `ParseFun : List Nat -> Except String XmlElem` passed to
  the pipeline.  Element trees use ElementTree conventions: tags are
  `"\x7bnamespace-uri\x7dlocal"` strings, attributes are keyed the same way.
* Python `list(set(xs))` has process-dependent iteration order (string hash
  randomization); it is modelled as an ordering oracle
  `SetOrder : List String -> List String`, valid orderings being the
  permutations of the deduplicated list.
* A Python exception inside a semantic check is modelled by giving checks the
  type `XmlElem -> Except String ...`; the single `try`/`except` of
  `_analyze_document_xml` is embedded by `run_semantic_checks`.
-/

/-- A diagnostic issue, mirroring class `Issue` of the source. -/
structure Issue where
  severity : String
  category : String
  message : String
  location : Option String := none
  context : Option String := none
  suggestion : Option String := none
deriving DecidableEq, Repr

/-- The per-key statistics dictionary `self.stats`.  Each field is `none`
while its key is absent. -/
structure TrackedChangesStats where
  insertions : Nat
  deletions : Nat
  paragraph_changes : Nat
  run_changes : Nat
  total : Nat
deriving DecidableEq, Repr

structure Stats where
  file_size : Option Nat := none
  file_size_mb : Option Nat := none
  zip_files : Option Nat := none
  tracked_changes : Option TrackedChangesStats := none
  smart_tags : Option Nat := none
  content_controls : Option Nat := none
  field_codes : Option Nat := none
  equations : Option Nat := none
  hyperlinks : Option Nat := none
  relationships : Option Nat := none
  external_refs : Option Nat := none
  embedded_objects : Option Nat := none
  media_files : Option Nat := none
deriving DecidableEq, Repr

/-- OpenXML namespace URIs (the `NAMESPACES` table of the source). -/
def ns_w : String := "http://schemas.openxmlformats.org/wordprocessingml/2006/main"
def ns_r : String := "http://schemas.openxmlformats.org/officeDocument/2006/relationships"
def ns_o : String := "urn:schemas-microsoft-com:office:office"
def ns_m : String := "http://schemas.openxmlformats.org/officeDocument/2006/math"
def ns_wp : String := "http://schemas.openxmlformats.org/drawingml/2006/wordprocessingDrawing"
def ns_a : String := "http://schemas.openxmlformats.org/drawingml/2006/main"
def ns_pic : String := "http://schemas.openxmlformats.org/drawingml/2006/picture"
def ns_ct : String := "http://schemas.openxmlformats.org/package/2006/content-types"
def ns_rel : String := "http://schemas.openxmlformats.org/package/2006/relationships"

/-- The values of the `NAMESPACES` dict (the known OOXML namespaces). -/
def KNOWN_NAMESPACES : List String :=
  [ns_w, ns_r, ns_o, ns_m, ns_wp, ns_a, ns_pic, ns_ct, ns_rel]

def lbrace_char : Char := Char.ofNat 123
def rbrace_char : Char := Char.ofNat 125

/-- Kernel-reducible string helpers mirroring the Python string operations.
(The corresponding core `String` functions iterate over byte positions with
well-founded recursion, which blocks kernel evaluation inside witnesses.) -/
def str_starts_with (s pre : String) : Bool := pre.data.isPrefixOf s.data

def str_ends_with (s suf : String) : Bool := suf.data.isSuffixOf s.data

def split_on_fuel (sep : List Char) : Nat → List Char → List Char → List (List Char)
  | _, [], acc => [acc.reverse]
  | 0, rest, acc => [acc.reverse ++ rest]
  | fuel + 1, c :: cs, acc =>
    if sep.isPrefixOf (c :: cs) then
      acc.reverse :: split_on_fuel sep fuel (cs.drop (sep.length - 1)) []
    else split_on_fuel sep fuel cs (c :: acc)

/-- Python `s.split(sep)` for nonempty `sep` (and `String.splitOn`). -/
def str_split_on (s sep : String) : List String :=
  if sep.data.isEmpty then [s]
  else (split_on_fuel sep.data (s.data.length + 1) s.data []).map (fun cs => String.mk cs)

def str_intercalate (sep : String) : List String → String
  | [] => ""
  | [x] => x
  | x :: y :: xs => x ++ sep ++ str_intercalate sep (y :: xs)

def str_to_upper (s : String) : String := String.mk (s.data.map Char.toUpper)

def str_drop (s : String) (n : Nat) : String := String.mk (s.data.drop n)

/-- ElementTree fully-qualified tag: `"\x7buri\x7dlocal"`. -/
def qtag (uri loc : String) : String := "\x7b" ++ uri ++ "\x7d" ++ loc

/-- An ElementTree element: tag, attributes, text, children. -/
inductive XmlElem : Type where
  | node (tag : String) (attrs : List (String × String)) (text : Option String)
      (children : List XmlElem)

def XmlElem.tag : XmlElem → String
  | .node t _ _ _ => t

def XmlElem.attrs : XmlElem → List (String × String)
  | .node _ a _ _ => a

def XmlElem.text : XmlElem → Option String
  | .node _ _ x _ => x

def XmlElem.children : XmlElem → List XmlElem
  | .node _ _ _ cs => cs

mutual

/-- `elem.iter()`: the element followed by all descendants, preorder. -/
def iter_elems : XmlElem → List XmlElem
  | .node t a x cs => .node t a x cs :: iter_list cs

def iter_list : List XmlElem → List XmlElem
  | [] => []
  | c :: cs => iter_elems c ++ iter_list cs

end

/-- `elem.findall(".//tag")`: all proper descendants with the given tag,
in document order. -/
def findall_desc (tag : String) (e : XmlElem) : List XmlElem :=
  (iter_list e.children).filter (fun x => x.tag == tag)

/-- `elem.find(tag)` with a plain tag: first direct child with that tag. -/
def find_child (tag : String) (e : XmlElem) : Option XmlElem :=
  e.children.find? (fun x => x.tag == tag)

/-- `elem.get(key)`. -/
def get_attr (e : XmlElem) (key : String) : Option String :=
  (e.attrs.find? (fun p => p.1 == key)).map (fun p => p.2)

/-- Python `s.upper()`-style substring test `pat in s` (used as
`'TOC' in text.upper()`). -/
def str_contains (s pat : String) : Bool := (str_split_on s pat).length != 1

/-- Python `hex(n)` for nonnegative `n`: lowercase, `0x` prefix. -/
def hex_digit (n : Nat) : Char :=
  if n < 10 then Char.ofNat (48 + n) else Char.ofNat (87 + n)

def to_hex_go : Nat → Nat → List Char
  | 0, _ => []
  | fuel + 1, n =>
    if n < 16 then [hex_digit n]
    else to_hex_go fuel (n / 16) ++ [hex_digit (n % 16)]

def to_hex (n : Nat) : String := "0x" ++ String.mk (to_hex_go (n + 1) n)

/-- Python `os.path.normpath` (POSIX flavour), on `/`-separated paths. -/
def normpath_go (isAbs : Bool) : List String → List String → List String
  | acc, [] => acc.reverse
  | acc, c :: rest =>
    if c = "" || c = "." then normpath_go isAbs acc rest
    else if c = ".." then
      match acc with
      | [] => if isAbs then normpath_go isAbs [] rest else normpath_go isAbs [".."] rest
      | p :: ps =>
        if p = ".." then normpath_go isAbs (".." :: p :: ps) rest
        else normpath_go isAbs ps rest
    else normpath_go isAbs (c :: acc) rest

def normpath (p : String) : String :=
  if p = "" then "." else
  let isAbs := str_starts_with p "/"
  let comps := normpath_go isAbs [] (str_split_on p "/")
  if isAbs then "/" ++ str_intercalate "/" comps
  else if comps.isEmpty then "." else str_intercalate "/" comps

/-- Python `.replace(chr(92), "/")` applied after `normpath` in the source. -/
def replace_backslash (s : String) : String :=
  String.mk (s.data.map (fun c => if c = '\\' then '/' else c))

/-- Python `s.lstrip("./")`: removes every leading character that is `.`
or `/` (not just one `./` prefix). -/
def lstrip_dot_slash (s : String) : String :=
  String.mk (s.toList.dropWhile (fun c => c == '.' || c == '/'))

/-- UTF-8 decoding of a byte list, as Python `bytes.decode("utf-8")`:
returns the codepoints, or the index of the first byte of the first
invalid sequence (`UnicodeDecodeError.start`). -/
def utf8_decode_go : List Nat → Nat → Except Nat (List Nat)
  | [], _ => .ok []
  | b :: rest, i =>
    if b < 0x80 then
      (utf8_decode_go rest (i + 1)).map (fun cs => b :: cs)
    else if b < 0xC2 then .error i
    else if b < 0xE0 then
      match rest with
      | c1 :: rest1 =>
        if 0x80 ≤ c1 ∧ c1 < 0xC0 then
          (utf8_decode_go rest1 (i + 2)).map
            (fun cs => ((b - 0xC0) * 64 + (c1 - 0x80)) :: cs)
        else .error i
      | [] => .error i
    else if b < 0xF0 then
      match rest with
      | c1 :: c2 :: rest2 =>
        let lo1 := if b = 0xE0 then 0xA0 else 0x80
        let hi1 := if b = 0xED then 0xA0 else 0xC0
        if (lo1 ≤ c1 ∧ c1 < hi1) ∧ (0x80 ≤ c2 ∧ c2 < 0xC0) then
          (utf8_decode_go rest2 (i + 3)).map
            (fun cs => ((b - 0xE0) * 4096 + (c1 - 0x80) * 64 + (c2 - 0x80)) :: cs)
        else .error i
      | _ => .error i
    else if b < 0xF5 then
      match rest with
      | c1 :: c2 :: c3 :: rest3 =>
        let lo1 := if b = 0xF0 then 0x90 else 0x80
        let hi1 := if b = 0xF4 then 0x90 else 0xC0
        if (lo1 ≤ c1 ∧ c1 < hi1) ∧ (0x80 ≤ c2 ∧ c2 < 0xC0) ∧ (0x80 ≤ c3 ∧ c3 < 0xC0) then
          (utf8_decode_go rest3 (i + 4)).map
            (fun cs =>
              ((b - 0xF0) * 262144 + (c1 - 0x80) * 4096 + (c2 - 0x80) * 64 + (c3 - 0x80)) :: cs)
        else .error i
      | _ => .error i
    else .error i
def utf8_decode (bs : List Nat) : Except Nat (List Nat) := utf8_decode_go bs 0

/-! ## The invalid-character scan (`_check_invalid_characters`) -/

/-- The `INVALID_CHAR_RANGES` membership test of the source. -/
def is_invalid_char (c : Nat) : Bool :=
  decide (c ≤ 0x08) || c == 0x0B || c == 0x0C ||
  (decide (0x0E ≤ c) && decide (c ≤ 0x1F)) || c == 0x7F ||
  (decide (0xFFFE ≤ c) && decide (c ≤ 0xFFFF))

/-- One record of the `invalid_found` list. -/
structure InvalidFound where
  char : String
  position : Nat
  line : Nat
  context : String
deriving DecidableEq, Repr

/-- Render a window of codepoints with newline / carriage-return escaped, as
`text[a:b].replace(...)` does. -/
def escape_ctx (cs : List Nat) : String :=
  String.join (cs.map (fun c =>
    if c == 10 then "\\n" else if c == 13 then "\\r"
    else String.mk [Char.ofNat c]))

def count_newlines (cs : List Nat) : Nat := (cs.filter (fun c => c == 10)).length

/-- The scan loop of `_check_invalid_characters`: every flagged codepoint with
its hex code, offset, 1-based line, and a plus-or-minus-20-character context. -/
def scan_invalid (text : List Nat) : List InvalidFound :=
  (List.range text.length).filterMap (fun i =>
    let c := text.getD i 0
    if is_invalid_char c then
      some { char := to_hex c, position := i,
             line := count_newlines (text.take i) + 1,
             context := escape_ctx ((text.take (min text.length (i + 20))).drop (i - 20)) }
    else none)

/-- `char_counts`: occurrence counts grouped by hex code, first-seen order. -/
def group_counts (chars : List String) : List (String × Nat) :=
  chars.foldl (fun acc c =>
    if acc.any (fun p => p.1 == c) then
      acc.map (fun p => if p.1 == c then (p.1, p.2 + 1) else p)
    else acc ++ [(c, 1)]) []

def invalid_summary (found : List InvalidFound) : String :=
  str_intercalate ", "
    ((group_counts (found.map (fun f => f.char))).map
      (fun p => p.1 ++ ": " ++ toString p.2 ++ "x"))

/-- The `Encoding/ERROR` issue produced on a UTF-8 decode failure at byte
offset `pos`. -/
def encoding_issue (filename : String) (pos : Nat) : Issue :=
  { severity := "ERROR", category := "Encoding",
    message := "Invalid UTF-8 encoding in " ++ filename,
    location := some ("Byte position: " ++ toString pos),
    suggestion := some "Document contains invalid byte sequences. May need manual repair." }

/-- The aggregate `InvalidCharacters/ERROR` issue. -/
def invalid_chars_issue (filename : String) (found : List InvalidFound) : Issue :=
  { severity := "ERROR", category := "Invalid Characters",
    message := "Found " ++ toString found.length ++
      " invalid XML character(s) in " ++ filename,
    location := some ("Characters found: " ++ invalid_summary found),
    context := (found.head?).map (fun f => f.context),
    suggestion := some "Remove control characters. These often come from copy/paste operations." }

/-- One verbose-mode `InvalidCharacterDetail/INFO` issue. -/
def detail_issue (item : InvalidFound) : Issue :=
  { severity := "INFO", category := "Invalid Character Detail",
    message := "Character " ++ item.char ++ " at line " ++ toString item.line ++
      ", position " ++ toString item.position,
    context := some item.context }

/-- `_check_invalid_characters(content, filename)`; returns the issues it
appends.  In verbose mode up to five detail issues follow the aggregate. -/
def check_invalid_characters (verbose : Bool) (content : List Nat)
    (filename : String) : List Issue :=
  match utf8_decode content with
  | .error pos => [encoding_issue filename pos]
  | .ok text =>
    let invalid_found := scan_invalid text
    if invalid_found.isEmpty then []
    else invalid_chars_issue filename invalid_found ::
      (if verbose then (invalid_found.take 5).map detail_issue else [])

/-! ## Semantic checks over the parsed document tree -/

/-- `_check_tracked_changes`. -/
def check_tracked_changes (root : XmlElem) : List Issue × (Stats → Stats) :=
  let insertions := findall_desc (qtag ns_w "ins") root
  let deletions := findall_desc (qtag ns_w "del") root
  let para_changes := findall_desc (qtag ns_w "pPrChange") root
  let run_changes := findall_desc (qtag ns_w "rPrChange") root
  let total_revisions :=
    insertions.length + deletions.length + para_changes.length + run_changes.length
  let upd : Stats → Stats := fun s =>
    { s with tracked_changes :=
               some ({ insertions := insertions.length, deletions := deletions.length,
                       paragraph_changes := para_changes.length,
                       run_changes := run_changes.length,
                       total := total_revisions }) }
  if total_revisions > 0 then
    let sev := if total_revisions < 100 then "WARNING" else "ERROR"
    let main : Issue :=
      { severity := sev, category := "Tracked Changes",
        message := "Document contains " ++ toString total_revisions ++ " tracked change(s)",
        location := some ("Insertions: " ++ toString insertions.length ++
          ", Deletions: " ++ toString deletions.length ++
          ", Paragraph changes: " ++ toString para_changes.length ++
          ", Run changes: " ++ toString run_changes.length),
        suggestion := some "Accept or reject all tracked changes before processing to avoid issues." }
    let nested :=
      if insertions.any (fun ins => !(findall_desc (qtag ns_w "del") ins).isEmpty) then
        [({ severity := "WARNING", category := "Nested Revisions",
            message := "Found deletions nested inside insertions (complex revision structure)",
            suggestion := some "This can cause processing issues. Accept all changes in Word first." } : Issue)]
      else []
    (main :: nested, upd)
  else ([], upd)

/-- `_check_smart_tags`. -/
def check_smart_tags (root : XmlElem) : List Issue × (Stats → Stats) :=
  let smart_tags := findall_desc (qtag ns_w "smartTag") root
  ((if smart_tags.isEmpty then [] else
    [{ severity := "WARNING", category := "Smart Tags",
       message := "Document contains " ++ toString smart_tags.length ++ " deprecated smart tag(s)",
       suggestion := some "Smart tags are deprecated and may cause processing issues. Open in Word and save to remove them." }]),
   fun s => { s with smart_tags := some smart_tags.length })

/-- The locked-state values recognised by `_check_content_controls`. -/
def locked_vals : List String := ["sdtLocked", "contentLocked", "sdtContentLocked"]

/-- `_check_content_controls`. -/
def check_content_controls (root : XmlElem) : List Issue × (Stats → Stats) :=
  let sdt_elements := findall_desc (qtag ns_w "sdt") root
  let locked_count := (sdt_elements.filter (fun sdt =>
    match find_child (qtag ns_w "sdtPr") sdt with
    | none => false
    | some sdt_pr =>
      match find_child (qtag ns_w "lock") sdt_pr with
      | none => false
      | some lock => locked_vals.contains ((get_attr lock (qtag ns_w "val")).getD ""))).length
  let issues :=
    if sdt_elements.isEmpty then []
    else if locked_count > 0 then
      [({ severity := "WARNING", category := "Content Controls",
          message := "Document contains " ++ toString locked_count ++ " locked content control(s)",
          suggestion := some "Locked content controls may prevent editing. Unlock them in Word if needed." } : Issue)]
    else
      [({ severity := "INFO", category := "Content Controls",
          message := "Document contains " ++ toString sdt_elements.length ++ " content control(s)" } : Issue)]
  (issues, fun s => { s with content_controls := some sdt_elements.length })

/-- The marker classification of `_check_field_codes` (first match wins). -/
def field_type_of (txt : String) : Option String :=
  let u := str_to_upper txt
  if str_contains u "TOC" then some "Table of Contents"
  else if str_contains u "REF" then some "Cross-reference"
  else if str_contains u "HYPERLINK" then some "Hyperlink"
  else if str_contains u "MERGEFIELD" then some "Mail Merge"
  else if str_contains u "PAGE" then some "Page Number"
  else if str_contains u "DATE" || str_contains u "TIME" then some "Date/Time"
  else none

/-- `list(set(xs))` for string lists: process-dependent iteration order,
modelled as an oracle. -/
def SetOrder : Type := List String → List String

/-- A valid `list(set(xs))` outcome is a permutation of the deduplicated
elements of `xs`. -/
def IsSetOrder (so : SetOrder) : Prop :=
  ∀ xs : List String, List.Perm (so xs) xs.dedup

/-- `_check_field_codes`. -/
def check_field_codes (so : SetOrder) (root : XmlElem) : List Issue × (Stats → Stats) :=
  let field_chars := findall_desc (qtag ns_w "fldChar") root
  let instr_texts := findall_desc (qtag ns_w "instrText") root
  let upd : Stats → Stats := fun s => { s with field_codes := some field_chars.length }
  if field_chars.isEmpty && instr_texts.isEmpty then ([], upd)
  else
    let field_types := instr_texts.filterMap (fun instr => field_type_of (instr.text.getD ""))
    let unique_types := so field_types
    ([{ severity := "INFO", category := "Field Codes",
        message := "Document contains " ++ toString field_chars.length ++ " field code(s)",
        location := some ("Types found: " ++
          (if unique_types.isEmpty then "Unknown" else str_intercalate ", " unique_types)),
        suggestion := some "Field codes may need to be updated or unlinked before processing." }],
     upd)

/-- `_check_equations`. -/
def check_equations (root : XmlElem) : List Issue × (Stats → Stats) :=
  let equations := findall_desc (qtag ns_m "oMath") root
  let equation_paras := findall_desc (qtag ns_m "oMathPara") root
  let total_equations := equations.length + equation_paras.length
  ((if total_equations > 0 then
      [{ severity := "INFO", category := "Equations",
         message := "Document contains " ++ toString total_equations ++ " equation(s)",
         suggestion := some "Equations (OMML) may cause processing issues. Consider converting to images if problems occur." }]
    else []),
   fun s => { s with equations := some total_equations })

/-- `_check_hyperlinks`.  A hyperlink is broken when both the relationship-id
attribute and the anchor attribute are absent or empty (Python falsiness). -/
def check_hyperlinks (root : XmlElem) : List Issue × (Stats → Stats) :=
  let hyperlinks := findall_desc (qtag ns_w "hyperlink") root
  let upd : Stats → Stats := fun s => { s with hyperlinks := some hyperlinks.length }
  if hyperlinks.isEmpty then ([], upd)
  else
    let broken_count := (hyperlinks.filter (fun hl =>
      ((get_attr hl (qtag ns_r "id")).getD "" == "") &&
      ((get_attr hl (qtag ns_w "anchor")).getD "" == ""))).length
    if broken_count > 0 then
      ([{ severity := "WARNING", category := "Hyperlinks",
          message := "Found " ++ toString broken_count ++ " hyperlink(s) without target reference",
          suggestion := some "Some hyperlinks may be broken. Check document relationships." }], upd)
    else
      ([{ severity := "INFO", category := "Hyperlinks",
          message := "Document contains " ++ toString hyperlinks.length ++ " hyperlink(s)" }], upd)

/-- Namespace URI of a qualified tag (`tag[1:tag.index(chr(125))]`). -/
def extract_ns (tag : String) : Option String :=
  if str_starts_with tag "\x7b" then
    some (String.mk ((tag.toList.drop 1).takeWhile (fun c => c != rbrace_char)))
  else none

/-- The namespace-collection loop of `_check_namespaces`: distinct namespace
URIs over `root.iter()`, first-seen order. -/
def collect_namespaces (root : XmlElem) : List String :=
  (iter_elems root).foldl (fun acc e =>
    match extract_ns e.tag with
    | none => acc
    | some ns => if acc.contains ns then acc else acc ++ [ns]) []

/-- `_check_namespaces` (sets no statistics). -/
def check_namespaces (root : XmlElem) : List Issue × (Stats → Stats) :=
  let namespaces := collect_namespaces root
  let custom_ns := namespaces.filter (fun ns => ns != "" && !KNOWN_NAMESPACES.contains ns)
  ((if custom_ns.isEmpty then [] else
    [{ severity := "INFO", category := "Custom Namespaces",
       message := "Document contains " ++ toString custom_ns.length ++ " custom namespace(s)",
       location := some (str_intercalate ", " (custom_ns.take 3) ++
         (if custom_ns.length > 3 then "..." else "")),
       suggestion := some "Custom namespaces may indicate third-party extensions that could cause issues." }]),
   id)

/-! ## Pipeline infrastructure -/

/-- Oracle for `xml.etree.ElementTree.fromstring`: parse bytes into a tree or
raise `ParseError` with a message. -/
def ParseFun : Type := List Nat → Except String XmlElem

/-- A named entry of the opened zip archive. -/
structure ZipEntry where
  name : String
  data : List Nat
deriving DecidableEq, Repr

/-- Outcome of `zipfile.ZipFile(path)` followed by `testzip()`:
the member list with the first corrupted member `testzip` reported (if any);
or a `BadZipFile` / other exception raised by the constructor (before
`self.zip_file` is assigned); or a non-`BadZipFile` exception raised by
`testzip()` itself — e.g. `RuntimeError` on an encrypted member or
`zlib.error` on a corrupt deflate stream — after the handle was assigned.
The last two reach the same `except Exception` handler of
`_check_zip_structure`, but differ in whether a handle was acquired. -/
inductive ZipResult : Type where
  | ok (entries : List ZipEntry) (badMember : Option String)
  | badZip (msg : String)
  | openError (msg : String)
  | integrityError (entries : List ZipEntry) (msg : String)
deriving DecidableEq, Repr

/-- The environment of one `run_all_checks` invocation: filesystem facts and
the zip-library outcome for the given path. -/
structure PackageInput where
  filepath : String
  pathExists : Bool
  isFile : Bool
  size : Nat
  zipResult : ZipResult
deriving DecidableEq, Repr

/-- `self.zip_file.open(name).read()` / `KeyError` when absent. -/
def lookup_entry (entries : List ZipEntry) (name : String) : Option (List Nat) :=
  (entries.find? (fun e => e.name == name)).map (fun e => e.data)

/-- `REQUIRED_FILES` of the source. -/
def REQUIRED_FILES : List String :=
  ["[Content_Types].xml", "_rels/.rels", "word/document.xml"]

/-- The `optional_files` table of `_check_required_files` (insertion order). -/
def OPTIONAL_FILES : List (String × String) :=
  [("word/styles.xml", "Style definitions missing - default styles will be used"),
   ("word/numbering.xml", "Numbering definitions missing - lists may not render correctly"),
   ("word/settings.xml", "Settings missing - document settings may be lost")]

/-- The `DOCXStructure/ERROR` issue for one missing mandatory part. -/
def missing_required_issue (required : String) : Issue :=
  { severity := "ERROR", category := "DOCX Structure",
    message := "Missing required file: " ++ required,
    suggestion := some "Document structure is incomplete. May be corrupted." }

/-- `_check_required_files`. -/
def check_required_files (entries : List ZipEntry) : List Issue :=
  let file_list := entries.map (fun e => e.name)
  (REQUIRED_FILES.filterMap (fun required =>
     if file_list.contains required then none
     else some (missing_required_issue required)))
  ++ (OPTIONAL_FILES.filterMap (fun p =>
     if file_list.contains p.1 then none
     else some { severity := "INFO", category := "DOCX Structure",
                 message := p.2, location := some p.1 }))

/-- A semantic check as run inside the `try` of `_analyze_document_xml`:
it may raise (`.error`) instead of returning its issues and stats update. -/
def SemCheck : Type := XmlElem → Except String (List Issue × (Stats → Stats))

/-- The `Analysis/ERROR` issue produced by the `except Exception` handler of
`_analyze_document_xml`. -/
def analysis_error_issue (e : String) : Issue :=
  { severity := "ERROR", category := "Analysis",
    message := "Error analyzing document.xml: " ++ e }

/-- The check sequence of `_analyze_document_xml` under its single
`try`/`except`: checks run in order; the first raised exception is caught by
the one handler, which appends an `Analysis/ERROR` issue — issues of checks
that already completed are kept, but the checks after the failing one are
never run. -/
def run_semantic_checks : List SemCheck → XmlElem → List Issue × (Stats → Stats)
  | [], _ => ([], id)
  | c :: cs, root =>
    match c root with
    | .error e => ([analysis_error_issue e], id)
    | .ok (is, u) =>
      let r := run_semantic_checks cs root
      (is ++ r.1, r.2 ∘ u)

/-- The seven checks of `_analyze_document_xml`, in source order; each is a
total Lean function, lifted into the fallible check type. -/
def semantic_checks (so : SetOrder) : List SemCheck :=
  [fun root => .ok (check_tracked_changes root),
   fun root => .ok (check_smart_tags root),
   fun root => .ok (check_content_controls root),
   fun root => .ok (check_field_codes so root),
   fun root => .ok (check_equations root),
   fun root => .ok (check_hyperlinks root),
   fun root => .ok (check_namespaces root)]

/-- The `XMLParsing/ERROR` issue of `_analyze_document_xml`. -/
def xml_parse_issue (msg : String) : Issue :=
  { severity := "ERROR", category := "XML Parsing",
    message := "Failed to parse document.xml: " ++ msg,
    suggestion := some "Document XML is malformed. Check for invalid characters or corrupted content." }

/-- The `DOCXStructure/ERROR` issue of the `except KeyError` handler. -/
def document_missing_issue : Issue :=
  { severity := "ERROR", category := "DOCX Structure",
    message := "document.xml not found in archive" }

/-- `_analyze_document_xml`: read `word/document.xml`, scan raw content for
invalid characters, parse it as XML (the parse is attempted regardless of the
scan's outcome), then run the semantic checks. -/
def analyze_document_xml (pf : ParseFun) (so : SetOrder) (verbose : Bool)
    (entries : List ZipEntry) : List Issue × (Stats → Stats) :=
  match lookup_entry entries "word/document.xml" with
  | none => ([document_missing_issue], id)
  | some content =>
    let inv := check_invalid_characters verbose content "word/document.xml"
    match pf content with
    | .error msg => (inv ++ [xml_parse_issue msg], id)
    | .ok root =>
      let r := run_semantic_checks (semantic_checks so) root
      (inv ++ r.1, r.2)

/-- One record of the `broken_refs` list of `_check_relationships`. -/
structure BrokenRef where
  target : String
  rtype : String
deriving DecidableEq, Repr

/-- Classification of one `<Relationship>` element, as the loop body of
`_check_relationships` does it. -/
inductive RelClass : Type where
  | external (target : String)
  | resolved
  | broken (b : BrokenRef)
deriving DecidableEq, Repr

def rel_target (rel : XmlElem) : String := (get_attr rel "Target").getD ""

def rel_target_mode (rel : XmlElem) : String := (get_attr rel "TargetMode").getD ""

def rel_type_attr (rel : XmlElem) : String := (get_attr rel "Type").getD ""

/-- The loop body of `_check_relationships` for one relationship entry. -/
def classify_rel (names : List String) (rel : XmlElem) : RelClass :=
  let target := rel_target rel
  let target_mode := rel_target_mode rel
  let rel_type := rel_type_attr rel
  if target_mode == "External" || str_starts_with target "http" then .external target
  else
    let target_path :=
      if str_starts_with target "/" then str_drop target 1 else "word/" ++ target
    let target_path := replace_backslash (normpath target_path)
    if names.contains target_path then .resolved
    else
      let alt_path := lstrip_dot_slash target
      if names.contains alt_path then .resolved
      else .broken { target := target,
                     rtype := if rel_type == "" then "unknown"
                              else ((str_split_on rel_type "/").getLastD "") }

/-- The whole classification loop: `broken_refs` and `external_refs`, in
entry order. -/
def rel_fold (names : List String) : List XmlElem → List BrokenRef × List String
  | [] => ([], [])
  | rel :: rest =>
    let tail := rel_fold names rest
    match classify_rel names rel with
    | .external t => (tail.1, t :: tail.2)
    | .resolved => tail
    | .broken b => (b :: tail.1, tail.2)

/-- `_check_relationships`. -/
def check_relationships (pf : ParseFun) (so : SetOrder)
    (entries : List ZipEntry) : List Issue × (Stats → Stats) :=
  match lookup_entry entries "word/_rels/document.xml.rels" with
  | none =>
    ([{ severity := "WARNING", category := "Relationships",
        message := "Document relationships file not found",
        location := some "word/_rels/document.xml.rels" }], id)
  | some content =>
    match pf content with
    | .error msg =>
      ([{ severity := "ERROR", category := "Relationships",
          message := "Failed to parse relationships: " ++ msg }], id)
    | .ok root =>
      let names := entries.map (fun e => e.name)
      let relationships := findall_desc (qtag ns_rel "Relationship") root
      let upd1 : Stats → Stats := fun s => { s with relationships := some relationships.length }
      let folded := rel_fold names relationships
      let broken_refs := folded.1
      let external_refs := folded.2
      let broken_issues :=
        if broken_refs.isEmpty then []
        else
          let types := so (broken_refs.map (fun b => b.rtype))
          [({ severity := "WARNING", category := "Broken References",
              message := "Found " ++ toString broken_refs.length ++
                " broken internal reference(s)",
              location := some ("Types: " ++ str_intercalate ", " types),
              suggestion := some "Some referenced files are missing. Document may have been edited externally." } : Issue)]
      let ext_issues :=
        if external_refs.isEmpty then []
        else
          [({ severity := "INFO", category := "External References",
              message := "Document contains " ++ toString external_refs.length ++
                " external reference(s) (URLs)" } : Issue)]
      let upd2 : Stats → Stats := fun s =>
        if external_refs.isEmpty then s
        else { s with external_refs := some external_refs.length }
      (broken_issues ++ ext_issues, upd2 ∘ upd1)

/-- `_check_embedded_objects`. -/
def check_embedded_objects (entries : List ZipEntry) : List Issue × (Stats → Stats) :=
  let file_list := entries.map (fun e => e.name)
  let embeddings := file_list.filter (fun f => str_starts_with f "word/embeddings/")
  let emb_issues :=
    if embeddings.isEmpty then []
    else
      let ole_objects := embeddings.filter (fun f => str_ends_with f ".bin")
      let other_objects := embeddings.filter (fun f => !str_ends_with f ".bin")
      [({ severity := "WARNING", category := "Embedded Objects",
          message := "Document contains " ++ toString embeddings.length ++
            " embedded object(s)",
          location := some ("OLE objects: " ++ toString ole_objects.length ++
            ", Other: " ++ toString other_objects.length),
          suggestion := some "Embedded OLE objects (Excel, PDF, etc.) may cause processing issues. Consider removing or converting them." } : Issue)]
  let media := file_list.filter (fun f => str_starts_with f "word/media/")
  let media_issues :=
    if media.isEmpty then []
    else
      [({ severity := "INFO", category := "Media Files",
          message := "Document contains " ++ toString media.length ++
            " media file(s) (images, etc.)" } : Issue)]
  (emb_issues ++ media_issues,
   fun s => { s with embedded_objects := some embeddings.length,
                     media_files := some media.length })

/-! ## `run_all_checks` and `get_summary` -/

/-- `round(size / (1024*1024), 2)` modelled in hundredths of a MiB (the source
stores a float; no claim depends on its value, only on its determinism). -/
def round2_mb (size : Nat) : Nat := (size * 100 + 524288) / 1048576

/-- The `FileSize/WARNING` issue for very large files. -/
def file_size_warning (size : Nat) : Issue :=
  { severity := "WARNING", category := "File Size",
    message := "File is very large (" ++ toString (round2_mb size) ++
      "MB), may cause performance issues" }

/-- Final state of one `run_all_checks` invocation: the accumulated issues
and stats, whether `zipfile.ZipFile` was successfully constructed
(`self.zip_file` assigned), whether `close()` was reached, and the boolean
return value. -/
structure RunResult where
  filepath : String
  issues : List Issue
  stats : Stats
  zip_opened : Bool
  zip_closed : Bool
  passed : Bool
deriving DecidableEq, Repr

def count_severity (sev : String) (issues : List Issue) : Nat :=
  (issues.filter (fun i => i.severity == sev)).length

/-- `run_all_checks`: the full pipeline.  Mirrors the source's control flow:
file checks and the zip check short-circuit; `_check_required_files` does
not; the zip handle is closed only on the path that reaches the end of the
method (the early `return False` after a failed `testzip` skips `close()`). -/
def run_all_checks (pf : ParseFun) (so : SetOrder) (verbose : Bool)
    (inp : PackageInput) : RunResult :=
  if !inp.pathExists then
    { filepath := inp.filepath,
      issues := [{ severity := "ERROR", category := "File Access",
                   message := "File not found: " ++ inp.filepath }],
      stats := {}, zip_opened := false, zip_closed := false, passed := false }
  else if !inp.isFile then
    { filepath := inp.filepath,
      issues := [{ severity := "ERROR", category := "File Access",
                   message := "Path is not a file: " ++ inp.filepath }],
      stats := {}, zip_opened := false, zip_closed := false, passed := false }
  else
    let stats0 : Stats := { file_size := some inp.size,
                            file_size_mb := some (round2_mb inp.size) }
    if inp.size == 0 then
      { filepath := inp.filepath,
        issues := [{ severity := "ERROR", category := "File Access",
                     message := "File is empty (0 bytes)" }],
        stats := stats0, zip_opened := false, zip_closed := false, passed := false }
    else
      let size_issues :=
        if inp.size > 100 * 1024 * 1024 then [file_size_warning inp.size] else []
      match inp.zipResult with
      | .badZip msg =>
        { filepath := inp.filepath,
          issues := size_issues ++
            [{ severity := "ERROR", category := "ZIP Structure",
               message := "Invalid ZIP archive: " ++ msg,
               suggestion := some "File is not a valid DOCX. May be corrupted or not a Word document." }],
          stats := stats0, zip_opened := false, zip_closed := false, passed := false }
      | .openError msg =>
        { filepath := inp.filepath,
          issues := size_issues ++
            [{ severity := "ERROR", category := "ZIP Structure",
               message := "Error reading file: " ++ msg }],
          stats := stats0, zip_opened := false, zip_closed := false, passed := false }
      | .integrityError _ msg =>
        { filepath := inp.filepath,
          issues := size_issues ++
            [{ severity := "ERROR", category := "ZIP Structure",
               message := "Error reading file: " ++ msg }],
          stats := stats0, zip_opened := true, zip_closed := false, passed := false }
      | .ok entries badMember =>
        match badMember with
        | some bad =>
          { filepath := inp.filepath,
            issues := size_issues ++
              [{ severity := "ERROR", category := "ZIP Structure",
                 message := "Corrupted file in archive: " ++ bad,
                 suggestion := some "The DOCX archive is corrupted. Try opening and re-saving in Word." }],
            stats := stats0, zip_opened := true, zip_closed := false, passed := false }
        | none =>
          let stats1 := { stats0 with zip_files := some entries.length }
          let req_issues := check_required_files entries
          let doc := analyze_document_xml pf so verbose entries
          let rel := check_relationships pf so entries
          let emb := check_embedded_objects entries
          let issues := size_issues ++ req_issues ++ doc.1 ++ rel.1 ++ emb.1
          { filepath := inp.filepath,
            issues := issues,
            stats := emb.2 (rel.2 (doc.2 stats1)),
            zip_opened := true, zip_closed := true,
            passed := count_severity "ERROR" issues == 0 }

/-- The `DiagnosticReport` of `get_summary`. -/
structure Report where
  file : String
  status : String
  errors : Nat
  warnings : Nat
  info : Nat
  statistics : Stats
  issues : List Issue
deriving DecidableEq, Repr

/-- `get_summary`: per-severity counts and the derived status. -/
def get_summary (r : RunResult) : Report :=
  let error_count := count_severity "ERROR" r.issues
  let warning_count := count_severity "WARNING" r.issues
  let info_count := count_severity "INFO" r.issues
  { file := r.filepath,
    status := if error_count > 0 then "FAIL"
              else if warning_count > 0 then "WARN" else "PASS",
    errors := error_count, warnings := warning_count, info := info_count,
    statistics := r.stats, issues := r.issues }

/-! ## General lemmas about counting and the derived status -/

theorem count_severity_pos (s : String) (l : List Issue) :
    0 < count_severity s l ↔ ∃ i ∈ l, i.severity = s := by
  simp [count_severity, List.length_pos, List.filter_eq_nil_iff]

theorem count_severity_append (s : String) (l1 l2 : List Issue) :
    count_severity s (l1 ++ l2) = count_severity s l1 + count_severity s l2 := by
  simp [count_severity, List.filter_append]

theorem get_summary_status_iff (r : RunResult) :
    ((get_summary r).status = "FAIL" ↔ ∃ i ∈ r.issues, i.severity = "ERROR") ∧
    ((get_summary r).status = "WARN" ↔
      (¬ ∃ i ∈ r.issues, i.severity = "ERROR") ∧ ∃ i ∈ r.issues, i.severity = "WARNING") ∧
    ((get_summary r).status = "PASS" ↔
      (¬ ∃ i ∈ r.issues, i.severity = "ERROR") ∧ ¬ ∃ i ∈ r.issues, i.severity = "WARNING") := by
  have he := count_severity_pos "ERROR" r.issues
  have hw := count_severity_pos "WARNING" r.issues
  rcases Nat.eq_zero_or_pos (count_severity "ERROR" r.issues) with h1 | h1
  · rcases Nat.eq_zero_or_pos (count_severity "WARNING" r.issues) with h2 | h2
    · simp [get_summary, h1, h2, ← he, ← hw]
    · simp [get_summary, h1, h2, ← he, ← hw]
  · simp [get_summary, h1, Nat.pos_iff_ne_zero.mp h1, ← he, ← hw]

/-- C1: for every analysis run, the report's status is FAIL iff at least one
recorded issue has severity ERROR; it is WARN iff no issue has severity ERROR
and at least one has severity WARNING; otherwise it is PASS.  `get_summary`
computes the status from the run's issue list alone — it is derived, not
independently settable. -/
theorem status_derivation (pf : ParseFun) (so : SetOrder) (v : Bool) (inp : PackageInput) :
    ((get_summary (run_all_checks pf so v inp)).status = "FAIL" ↔
      ∃ i ∈ (get_summary (run_all_checks pf so v inp)).issues, i.severity = "ERROR") ∧
    ((get_summary (run_all_checks pf so v inp)).status = "WARN" ↔
      (¬ ∃ i ∈ (get_summary (run_all_checks pf so v inp)).issues, i.severity = "ERROR") ∧
      ∃ i ∈ (get_summary (run_all_checks pf so v inp)).issues, i.severity = "WARNING") ∧
    ((get_summary (run_all_checks pf so v inp)).status = "PASS" ↔
      (¬ ∃ i ∈ (get_summary (run_all_checks pf so v inp)).issues, i.severity = "ERROR") ∧
      ¬ ∃ i ∈ (get_summary (run_all_checks pf so v inp)).issues, i.severity = "WARNING") :=
  get_summary_status_iff (run_all_checks pf so v inp)


/-- C6: for a parsed document with N insertion elements, M deletion elements
and no paragraph- or run-property-change elements, the tracked-changes
statistic records total = N+M, and the Tracked Changes issue (emitted exactly
when N+M > 0) has severity WARNING iff N+M < 100, else ERROR. -/
theorem tracked_changes_spec (root : XmlElem) (N M : Nat)
    (hN : (findall_desc (qtag ns_w "ins") root).length = N)
    (hM : (findall_desc (qtag ns_w "del") root).length = M)
    (hP : (findall_desc (qtag ns_w "pPrChange") root).length = 0)
    (hR : (findall_desc (qtag ns_w "rPrChange") root).length = 0) :
    ((check_tracked_changes root).2 ({} : Stats)).tracked_changes =
      some { insertions := N, deletions := M, paragraph_changes := 0,
             run_changes := 0, total := N + M } ∧
    (∀ i ∈ (check_tracked_changes root).1, i.category = "Tracked Changes" →
      i.severity = (if N + M < 100 then "WARNING" else "ERROR")) ∧
    (0 < N + M → ∃ i ∈ (check_tracked_changes root).1, i.category = "Tracked Changes") := by
  unfold check_tracked_changes
  simp only [hN, hM, hP, hR, Nat.add_zero]
  refine ⟨?_, ?_, ?_⟩
  · split <;> rfl
  · intro i hi hcat
    by_cases h : N + M > 0
    · rw [if_pos h] at hi
      rcases List.mem_cons.mp hi with hmain | hrest
      · rw [hmain]
      · by_cases hn : ((findall_desc (qtag ns_w "ins") root).any
            (fun ins => !(findall_desc (qtag ns_w "del") ins).isEmpty)) = true
        · rw [if_pos hn] at hrest
          simp only [List.mem_singleton] at hrest
          rw [hrest] at hcat
          exact absurd hcat (by decide)
        · rw [if_neg hn] at hrest
          exact absurd hrest (List.not_mem_nil i)
    · rw [if_neg h] at hi
      exact absurd hi (List.not_mem_nil i)
  · intro h
    rw [if_pos h]
    exact ⟨_, List.mem_cons_self _ _, rfl⟩

/-- A concrete document with one insertion and one deletion element. -/
def tracked_root : XmlElem :=
  .node (qtag ns_w "document") [] none
    [.node (qtag ns_w "ins") [] none [], .node (qtag ns_w "del") [] none []]

/-- Witness for `tracked_changes_spec` at a concrete document with one
insertion and one deletion. -/
theorem tracked_changes_spec_witness :
    (((check_tracked_changes tracked_root).2 ({} : Stats)).tracked_changes =
      some { insertions := 1, deletions := 1, paragraph_changes := 0,
             run_changes := 0, total := 1 + 1 }) ∧
    (∀ i ∈ (check_tracked_changes tracked_root).1, i.category = "Tracked Changes" →
      i.severity = (if 1 + 1 < 100 then "WARNING" else "ERROR")) ∧
    (0 < 1 + 1 → ∃ i ∈ (check_tracked_changes tracked_root).1, i.category = "Tracked Changes") :=
  tracked_changes_spec tracked_root 1 1 (by decide) (by decide) (by decide) (by decide)

/-- Whether the zip open or its integrity test failed (a `BadZipFile`, any
other open error, or `testzip` naming a corrupted member). -/
def zip_failed : ZipResult → Bool
  | .ok _ none => false
  | _ => true

/-- C7: for every input whose archive fails the zip open or integrity test,
the run's report holds exactly one ERROR issue, that issue is under the
`ZIP Structure` category, and the only other possible issue is the earlier
non-fatal file-size warning — nothing from later pipeline stages. -/
theorem zip_failure_single_error (pf : ParseFun) (so : SetOrder) (v : Bool) (inp : PackageInput)
    (h1 : inp.pathExists = true) (h2 : inp.isFile = true) (h3 : inp.size ≠ 0)
    (h4 : zip_failed inp.zipResult = true) :
    count_severity "ERROR" (run_all_checks pf so v inp).issues = 1 ∧
    (∀ i ∈ (run_all_checks pf so v inp).issues,
      i.severity = "ERROR" → i.category = "ZIP Structure") ∧
    ∃ zi : Issue, zi.severity = "ERROR" ∧ zi.category = "ZIP Structure" ∧
      (run_all_checks pf so v inp).issues =
        (if inp.size > 100 * 1024 * 1024 then [file_size_warning inp.size] else []) ++ [zi] := by
  have key : ∃ zi : Issue, zi.severity = "ERROR" ∧ zi.category = "ZIP Structure" ∧
      (run_all_checks pf so v inp).issues =
        (if inp.size > 100 * 1024 * 1024 then [file_size_warning inp.size] else []) ++ [zi] := by
    rcases hzr : inp.zipResult with ⟨entries, bad⟩ | msg | msg | ⟨entries, msg⟩
    · cases bad with
      | none => rw [hzr] at h4; simp [zip_failed] at h4
      | some b =>
        refine ⟨{ severity := "ERROR", category := "ZIP Structure",
                  message := "Corrupted file in archive: " ++ b,
                  suggestion := some "The DOCX archive is corrupted. Try opening and re-saving in Word." },
                rfl, rfl, ?_⟩
        unfold run_all_checks
        simp [h1, h2, h3, hzr]
    · refine ⟨{ severity := "ERROR", category := "ZIP Structure",
                message := "Invalid ZIP archive: " ++ msg,
                suggestion := some "File is not a valid DOCX. May be corrupted or not a Word document." },
              rfl, rfl, ?_⟩
      unfold run_all_checks
      simp [h1, h2, h3, hzr]
    · refine ⟨{ severity := "ERROR", category := "ZIP Structure",
                message := "Error reading file: " ++ msg },
              rfl, rfl, ?_⟩
      unfold run_all_checks
      simp [h1, h2, h3, hzr]
    · refine ⟨{ severity := "ERROR", category := "ZIP Structure",
                message := "Error reading file: " ++ msg },
              rfl, rfl, ?_⟩
      unfold run_all_checks
      simp [h1, h2, h3, hzr]
  rcases key with ⟨zi, hsev, hcat, heq⟩
  refine ⟨?_, ?_, ⟨zi, hsev, hcat, heq⟩⟩
  · rw [heq, count_severity_append]
    split
    · simp [count_severity, file_size_warning, hsev]
    · simp [count_severity, hsev]
  · intro i hi hie
    rw [heq] at hi
    rcases List.mem_append.mp hi with hl | hr
    · split at hl
      · simp only [List.mem_singleton] at hl
        rw [hl] at hie
        simp [file_size_warning] at hie
      · exact absurd hl (List.not_mem_nil i)
    · simp only [List.mem_singleton] at hr
      rw [hr]
      exact hcat

/-- A parse oracle that rejects everything (used at concrete inputs whose
runs never reach a successful parse, or where the outcome is irrelevant). -/
def pf_stub : ParseFun := fun _ => .error "stub"

/-- The identity ordering oracle. -/
def so_id : SetOrder := fun xs => xs

/-- A concrete corrupt archive: exists, regular file, nonempty, and the zip
open raises `BadZipFile`. -/
def bad_zip_input : PackageInput :=
  { filepath := "bad.docx", pathExists := true, isFile := true, size := 10,
    zipResult := .badZip "File is not a zip file" }

/-- Witness for `zip_failure_single_error` at `bad_zip_input`. -/
theorem zip_failure_single_error_witness :
    count_severity "ERROR" (run_all_checks pf_stub so_id false bad_zip_input).issues = 1 ∧
    (∀ i ∈ (run_all_checks pf_stub so_id false bad_zip_input).issues,
      i.severity = "ERROR" → i.category = "ZIP Structure") ∧
    ∃ zi : Issue, zi.severity = "ERROR" ∧ zi.category = "ZIP Structure" ∧
      (run_all_checks pf_stub so_id false bad_zip_input).issues =
        (if bad_zip_input.size > 100 * 1024 * 1024 then [file_size_warning bad_zip_input.size]
         else []) ++ [zi] :=
  zip_failure_single_error pf_stub so_id false bad_zip_input rfl rfl (by decide) rfl

/-! ## C2: exception isolation between semantic checks -/

/-- A semantic check that raises. -/
def boom_check : SemCheck := fun _ => .error "boom"

/-- The issue a sibling check would append if it ran. -/
def sibling_issue : Issue :=
  { severity := "WARNING", category := "Smart Tags", message := "sibling check ran" }

/-- A sibling semantic check scheduled after the raising one. -/
def sibling_check : SemCheck := fun _ => .ok ([sibling_issue], id)

def empty_doc : XmlElem := .node "doc" [] none []

/-- C2 counterexample: when the first semantic check raises, the handler
records a single `Analysis/ERROR` issue and the remaining checks do NOT run —
the sibling check's issue is absent from the output, contradicting the claim
that «all remaining semantic checks still run». -/
theorem semantic_check_failure_cex :
    (run_semantic_checks [boom_check, sibling_check] empty_doc).1 =
      [analysis_error_issue "boom"] ∧
    sibling_issue ∉ (run_semantic_checks [boom_check, sibling_check] empty_doc).1 :=
  ⟨rfl, by decide⟩

/-- C2 amended: an exception inside one semantic check is caught and turned
into an `Analysis/ERROR` issue, and the issues of checks that already
completed are kept — but the checks after the failing one are not run (the
`except` handler wraps the whole check sequence, not each check). -/
theorem semantic_check_failure_amended (cs1 cs2 : List SemCheck) (c : SemCheck)
    (root : XmlElem) (e : String)
    (h1 : ∀ c2 ∈ cs1, ∃ r, c2 root = .ok r)
    (h2 : c root = .error e) :
    (run_semantic_checks (cs1 ++ c :: cs2) root).1 =
      (run_semantic_checks cs1 root).1 ++ [analysis_error_issue e] := by
  induction cs1 with
  | nil => simp [run_semantic_checks, h2]
  | cons c0 rest ih =>
    obtain ⟨⟨is0, u0⟩, hr⟩ := h1 c0 (List.mem_cons_self _ _)
    have hrec := ih (fun c2 hc2 => h1 c2 (List.mem_cons_of_mem _ hc2))
    simp [run_semantic_checks, hr, hrec]

/-- A semantic check that completes normally before the raising one. -/
def first_check : SemCheck :=
  fun _ => .ok ([{ severity := "INFO", category := "Equations",
                   message := "first check ran" }], id)

/-- Witness for `semantic_check_failure_amended`: one completed check, then a
raising check, then a never-reached sibling. -/
theorem semantic_check_failure_amended_witness :
    (run_semantic_checks ([first_check] ++ boom_check :: [sibling_check]) empty_doc).1 =
      (run_semantic_checks [first_check] empty_doc).1 ++ [analysis_error_issue "boom"] :=
  semantic_check_failure_amended [first_check] [sibling_check] boom_check empty_doc "boom"
    (by intro c2 hc2
        simp only [List.mem_singleton] at hc2
        subst hc2
        exact ⟨_, rfl⟩)
    rfl

/-! ## C3: decode failure and the subsequent XML parse -/

/-- A package whose main document part is not valid UTF-8 (a lone 0xFF). -/
def undecodable_entries : List ZipEntry :=
  [{ name := "word/document.xml", data := [0xFF] }]

/-- C3 counterexample: on a document part that fails UTF-8 decoding, the
analyzer records the `Encoding/ERROR` issue and then still attempts the XML
parse of that part — here the parse fails too and its `XML Parsing` issue
appears in the output, contradicting the claim that no XML parse of the part
is attempted. -/
theorem decode_failure_cex :
    (analyze_document_xml pf_stub so_id false undecodable_entries).1 =
      [encoding_issue "word/document.xml" 0, xml_parse_issue "stub"] ∧
    ∃ i ∈ (analyze_document_xml pf_stub so_id false undecodable_entries).1,
      i.category = "XML Parsing" :=
  ⟨by decide, by decide⟩

/-- C3 amended: a decode failure records an `Encoding/ERROR` issue carrying
the byte offset of the first invalid sequence and stops only the
invalid-character scan of that part; the XML parse of the part is still
attempted, and its outcome determines the remaining issues of the part. -/
theorem decode_failure_amended (pf : ParseFun) (so : SetOrder) (v : Bool)
    (entries : List ZipEntry) (content : List Nat) (p : Nat)
    (hc : lookup_entry entries "word/document.xml" = some content)
    (hd : utf8_decode content = .error p) :
    check_invalid_characters v content "word/document.xml" =
      [encoding_issue "word/document.xml" p] ∧
    (analyze_document_xml pf so v entries).1 =
      encoding_issue "word/document.xml" p ::
        (match pf content with
         | .error msg => [xml_parse_issue msg]
         | .ok root => (run_semantic_checks (semantic_checks so) root).1) := by
  have hinv : check_invalid_characters v content "word/document.xml" =
      [encoding_issue "word/document.xml" p] := by
    unfold check_invalid_characters
    rw [hd]
  refine ⟨hinv, ?_⟩
  unfold analyze_document_xml
  rw [hc]
  cases hp : pf content with
  | error msg => simp [hinv, hp]
  | ok root => simp [hinv, hp]

/-- Witness for `decode_failure_amended` at the concrete undecodable part. -/
theorem decode_failure_amended_witness :
    check_invalid_characters false [0xFF] "word/document.xml" =
      [encoding_issue "word/document.xml" 0] ∧
    (analyze_document_xml pf_stub so_id false undecodable_entries).1 =
      encoding_issue "word/document.xml" 0 ::
        (match pf_stub [0xFF] with
         | .error msg => [xml_parse_issue msg]
         | .ok root => (run_semantic_checks (semantic_checks so_id) root).1) :=
  decode_failure_amended pf_stub so_id false undecodable_entries [0xFF] 0 rfl rfl

/-! ## C4: release of the package handle -/

/-- A concrete input whose zip opens but whose integrity test names a
corrupted member. -/
def bad_member_input : PackageInput :=
  { filepath := "c.docx", pathExists := true, isFile := true, size := 10,
    zipResult := .ok [{ name := "word/document.xml", data := [] }] (some "word/document.xml") }

/-- C4 counterexample: on the fail-fast abort for a corrupted zip member the
opened handle is NOT closed — `run_all_checks` returns through the early
`return False` that skips `close()`, contradicting the claim that the handle
is released on every path out of the run. -/
theorem handle_release_cex :
    (run_all_checks pf_stub so_id false bad_member_input).zip_opened = true ∧
    (run_all_checks pf_stub so_id false bad_member_input).zip_closed = false :=
  ⟨by decide, by decide⟩

/-- C4 amended: the open package handle is released on the normal-completion
path, but it is leaked (left open) on exactly the fail-fast aborts in which
the archive opened successfully and the integrity test then failed — either
by reporting a corrupted member, or by itself raising a non-`BadZipFile`
exception after the handle was assigned; on every other exit path no handle
is left open because none was successfully acquired. -/
theorem handle_release_amended (pf : ParseFun) (so : SetOrder) (v : Bool) (inp : PackageInput) :
    ((run_all_checks pf so v inp).zip_opened = true ∧
     (run_all_checks pf so v inp).zip_closed = false) ↔
    (inp.pathExists = true ∧ inp.isFile = true ∧ inp.size ≠ 0 ∧
     ((∃ entries bad, inp.zipResult = .ok entries (some bad)) ∨
      (∃ entries msg, inp.zipResult = .integrityError entries msg))) := by
  rcases inp with ⟨fp, pe, isf, sz, zr⟩
  cases pe with
  | false => simp [run_all_checks]
  | true =>
    cases isf with
    | false => simp [run_all_checks]
    | true =>
      by_cases hsz : sz = 0
      · simp [run_all_checks, hsz]
      · rcases zr with ⟨entries, bad⟩ | msg | msg | ⟨entries, msg⟩
        · cases bad with
          | none => simp [run_all_checks, hsz]
          | some b => simp [run_all_checks, hsz]
        · simp [run_all_checks, hsz]
        · simp [run_all_checks, hsz]
        · simp [run_all_checks, hsz]

/-! ## C5: which pipeline failures abort the run -/

/-- A package missing the mandatory `word/document.xml`, but containing a
media part that the embedded-object scanner reports. -/
def missing_doc_entries : List ZipEntry :=
  [{ name := "[Content_Types].xml", data := [] },
   { name := "_rels/.rels", data := [] },
   { name := "word/media/image1.png", data := [] }]

def missing_doc_input : PackageInput :=
  { filepath := "m.docx", pathExists := true, isFile := true, size := 10,
    zipResult := .ok missing_doc_entries none }

/-- C5 counterexample: a StructuralValidator failure (missing mandatory part
`word/document.xml`, reported as a `DOCX Structure` ERROR) does NOT stop the
pipeline — the embedded-object scanner still runs and its `Media Files` issue
appears in the same report, contradicting the claim that the remaining
stages do not run for that input. -/
theorem struct_failure_cex :
    (∃ i ∈ (run_all_checks pf_stub so_id false missing_doc_input).issues,
      i.severity = "ERROR" ∧ i.category = "DOCX Structure") ∧
    ∃ i ∈ (run_all_checks pf_stub so_id false missing_doc_input).issues,
      i.category = "Media Files" :=
  ⟨by decide, by decide⟩

/-- PackageLoader failure: file missing, not a regular file, empty, or a
failed zip open / integrity test. -/
def loader_failed (inp : PackageInput) : Bool :=
  !inp.pathExists || !inp.isFile || inp.size == 0 || zip_failed inp.zipResult

theorem missing_in_check_required (entries : List ZipEntry) (req : String)
    (hreq : req ∈ REQUIRED_FILES)
    (hcon : (entries.map (fun e => e.name)).contains req = false) :
    missing_required_issue req ∈ check_required_files entries := by
  unfold check_required_files
  apply List.mem_append_left
  exact List.mem_filterMap.mpr ⟨req, hreq, by rw [hcon]; rfl⟩

/-- C5 amended: a PackageLoader failure (file missing, not a regular file,
empty, bad zip, corrupted member) aborts the remaining pipeline — every issue
of such a run belongs to the loader stages.  A StructuralValidator failure
(missing mandatory part) is reported as one `DOCX Structure` ERROR per
missing part but does NOT abort: the XML analyzer, relationship validator and
embedded-object scanner still run and their issues follow in the report. -/
theorem loader_struct_abort_amended (pf : ParseFun) (so : SetOrder) (v : Bool)
    (inp : PackageInput) :
    (loader_failed inp = true →
      ∀ i ∈ (run_all_checks pf so v inp).issues,
        i.category = "File Access" ∨ i.category = "File Size" ∨
        i.category = "ZIP Structure") ∧
    (∀ entries, inp.pathExists = true → inp.isFile = true → inp.size ≠ 0 →
      inp.zipResult = .ok entries none →
      (run_all_checks pf so v inp).issues =
        (if inp.size > 100 * 1024 * 1024 then [file_size_warning inp.size] else []) ++
          check_required_files entries ++ (analyze_document_xml pf so v entries).1 ++
          (check_relationships pf so entries).1 ++ (check_embedded_objects entries).1 ∧
      (∀ req ∈ REQUIRED_FILES, (entries.map (fun e => e.name)).contains req = false →
        missing_required_issue req ∈ (run_all_checks pf so v inp).issues)) := by
  constructor
  · intro hl i hi
    rcases inp with ⟨fp, pe, isf, sz, zr⟩
    cases pe with
    | false =>
      simp [run_all_checks] at hi
      rw [hi]; left; rfl
    | true =>
      cases isf with
      | false =>
        simp [run_all_checks] at hi
        rw [hi]; left; rfl
      | true =>
        by_cases hsz : sz = 0
        · subst hsz
          simp [run_all_checks] at hi
          rw [hi]; left; rfl
        · rcases zr with ⟨entries, bad⟩ | msg | msg | ⟨entries, msg⟩
          · cases bad with
            | none => simp [loader_failed, zip_failed, hsz] at hl
            | some b =>
              simp [run_all_checks, hsz] at hi
              rcases hi with ⟨hbig, hi⟩ | hi
              · rw [hi]; right; left; rfl
              · rw [hi]; right; right; rfl
          · simp [run_all_checks, hsz] at hi
            rcases hi with ⟨hbig, hi⟩ | hi
            · rw [hi]; right; left; rfl
            · rw [hi]; right; right; rfl
          · simp [run_all_checks, hsz] at hi
            rcases hi with ⟨hbig, hi⟩ | hi
            · rw [hi]; right; left; rfl
            · rw [hi]; right; right; rfl
          · simp [run_all_checks, hsz] at hi
            rcases hi with ⟨hbig, hi⟩ | hi
            · rw [hi]; right; left; rfl
            · rw [hi]; right; right; rfl
  · intro entries h1 h2 h3 hzr
    have heq : (run_all_checks pf so v inp).issues =
        (if inp.size > 100 * 1024 * 1024 then [file_size_warning inp.size] else []) ++
          check_required_files entries ++ (analyze_document_xml pf so v entries).1 ++
          (check_relationships pf so entries).1 ++ (check_embedded_objects entries).1 := by
      unfold run_all_checks
      simp [h1, h2, h3, hzr]
    refine ⟨heq, ?_⟩
    intro req hreq hcon
    rw [heq]
    apply List.mem_append_left
    apply List.mem_append_left
    apply List.mem_append_left
    apply List.mem_append_right
    exact missing_in_check_required entries req hreq hcon

/-- Witness for `loader_struct_abort_amended`: the loader half at a corrupt
archive, the structural half at the package missing its main document. -/
theorem loader_struct_abort_amended_witness :
    (∀ i ∈ (run_all_checks pf_stub so_id false bad_zip_input).issues,
      i.category = "File Access" ∨ i.category = "File Size" ∨
      i.category = "ZIP Structure") ∧
    ((run_all_checks pf_stub so_id false missing_doc_input).issues =
        (if missing_doc_input.size > 100 * 1024 * 1024 then
          [file_size_warning missing_doc_input.size] else []) ++
          check_required_files missing_doc_entries ++
          (analyze_document_xml pf_stub so_id false missing_doc_entries).1 ++
          (check_relationships pf_stub so_id missing_doc_entries).1 ++
          (check_embedded_objects missing_doc_entries).1 ∧
      (∀ req ∈ REQUIRED_FILES,
        (missing_doc_entries.map (fun e => e.name)).contains req = false →
        missing_required_issue req ∈
          (run_all_checks pf_stub so_id false missing_doc_input).issues)) :=
  ⟨(loader_struct_abort_amended pf_stub so_id false bad_zip_input).1 rfl,
   (loader_struct_abort_amended pf_stub so_id false missing_doc_input).2
     missing_doc_entries rfl rfl (by decide) rfl⟩

/-- C8: per-entry classification of relationship entries.  An entry is
recorded as external exactly when its target mode is `External` or its target
starts with the URL scheme prefix `http` (this covers both `http` and
`https`, and is how the source tests for a URL scheme); such an entry is
never recorded as a broken reference, whatever its target.  Every other
entry is recorded as a broken reference exactly when its target — resolved
root-relatively on a leading `/` and relative to the `word/` base directory
otherwise, then normalized — matches no part of the package, and the retry
with the target stripped of its leading `.`/`/` characters (Python
`lstrip("./")`) also matches no part; the record carries the last segment of
the relationship's type URI (or `unknown`). -/
theorem relationship_classification (names : List String) (rels : List XmlElem) :
    (rel_fold names rels).2 =
      (rels.filter (fun rel =>
        rel_target_mode rel == "External" ||
        str_starts_with (rel_target rel) "http")).map rel_target ∧
    (rel_fold names rels).1 =
      rels.filterMap (fun rel =>
        if rel_target_mode rel == "External" ||
           str_starts_with (rel_target rel) "http" then none
        else if names.contains (replace_backslash (normpath
            (if str_starts_with (rel_target rel) "/" then str_drop (rel_target rel) 1
             else "word/" ++ rel_target rel))) then none
        else if names.contains (lstrip_dot_slash (rel_target rel)) then none
        else some { target := rel_target rel,
                    rtype := if rel_type_attr rel == "" then "unknown"
                             else ((str_split_on (rel_type_attr rel) "/").getLastD "") }) := by
  induction rels with
  | nil => exact ⟨rfl, rfl⟩
  | cons rel rest ih =>
    obtain ⟨ih1, ih2⟩ := ih
    by_cases hext : (rel_target_mode rel == "External" ||
        str_starts_with (rel_target rel) "http") = true
    · have hcl : classify_rel names rel = .external (rel_target rel) := by
        unfold classify_rel
        rw [if_pos hext]
      constructor
      · simp only [rel_fold, hcl, List.filter_cons, if_pos hext, List.map_cons]
        exact congrArg _ ih1
      · simp only [rel_fold, hcl, List.filterMap_cons, if_pos hext]
        exact ih2
    · by_cases hp : names.contains (replace_backslash (normpath
          (if str_starts_with (rel_target rel) "/" then str_drop (rel_target rel) 1
           else "word/" ++ rel_target rel))) = true
      · have hcl : classify_rel names rel = .resolved := by
          unfold classify_rel
          simp only [if_neg hext, if_pos hp]
        constructor
        · simp only [rel_fold, hcl, List.filter_cons, if_neg hext]
          exact ih1
        · simp only [rel_fold, hcl, List.filterMap_cons, if_neg hext, if_pos hp]
          exact ih2
      · by_cases ha : names.contains (lstrip_dot_slash (rel_target rel)) = true
        · have hcl : classify_rel names rel = .resolved := by
            unfold classify_rel
            simp only [if_neg hext, if_neg hp, if_pos ha]
          constructor
          · simp only [rel_fold, hcl, List.filter_cons, if_neg hext]
            exact ih1
          · simp only [rel_fold, hcl, List.filterMap_cons, if_neg hext, if_neg hp, if_pos ha]
            exact ih2
        · have hcl : classify_rel names rel = .broken
              { target := rel_target rel,
                rtype := if rel_type_attr rel == "" then "unknown"
                         else ((str_split_on (rel_type_attr rel) "/").getLastD "") } := by
            unfold classify_rel
            simp only [if_neg hext, if_neg hp, if_neg ha]
          constructor
          · simp only [rel_fold, hcl, List.filter_cons, if_neg hext]
            exact ih1
          · simp only [rel_fold, hcl, List.filterMap_cons, if_neg hext, if_neg hp, if_neg ha]
            exact congrArg _ ih2

/-! ## C9 and C10 infrastructure: issue-category and location lemmas -/

/-- Issues that are not verbose-only detail issues. -/
def keep_issue (i : Issue) : Bool := i.category != "Invalid Character Detail"

def is_detail (i : Issue) : Bool := i.category == "Invalid Character Detail"

theorem is_detail_eq_not_keep (i : Issue) : is_detail i = !keep_issue i := by
  unfold is_detail keep_issue
  rw [bne, Bool.not_not]

theorem check_tracked_changes_keep (root : XmlElem) :
    ∀ i ∈ (check_tracked_changes root).1, keep_issue i = true := by
  intro i hi
  unfold check_tracked_changes at hi
  simp only at hi
  split at hi
  · rcases List.mem_cons.mp hi with h | h
    · rw [h]; rfl
    · split at h
      · rw [List.mem_singleton.mp h]; rfl
      · exact absurd h (List.not_mem_nil i)
  · exact absurd hi (List.not_mem_nil i)

theorem check_smart_tags_keep (root : XmlElem) :
    ∀ i ∈ (check_smart_tags root).1, keep_issue i = true := by
  intro i hi
  unfold check_smart_tags at hi
  simp only at hi
  split at hi
  · exact absurd hi (List.not_mem_nil i)
  · rw [List.mem_singleton.mp hi]; rfl

theorem check_content_controls_keep (root : XmlElem) :
    ∀ i ∈ (check_content_controls root).1, keep_issue i = true := by
  intro i hi
  unfold check_content_controls at hi
  simp only at hi
  split at hi
  · exact absurd hi (List.not_mem_nil i)
  · split at hi
    · rw [List.mem_singleton.mp hi]; rfl
    · rw [List.mem_singleton.mp hi]; rfl

theorem check_field_codes_keep (so : SetOrder) (root : XmlElem) :
    ∀ i ∈ (check_field_codes so root).1, keep_issue i = true := by
  intro i hi
  unfold check_field_codes at hi
  simp only at hi
  split at hi
  · exact absurd hi (List.not_mem_nil i)
  · rw [List.mem_singleton.mp hi]; rfl

theorem check_equations_keep (root : XmlElem) :
    ∀ i ∈ (check_equations root).1, keep_issue i = true := by
  intro i hi
  unfold check_equations at hi
  simp only at hi
  split at hi
  · rw [List.mem_singleton.mp hi]; rfl
  · exact absurd hi (List.not_mem_nil i)

theorem check_hyperlinks_keep (root : XmlElem) :
    ∀ i ∈ (check_hyperlinks root).1, keep_issue i = true := by
  intro i hi
  unfold check_hyperlinks at hi
  simp only at hi
  split at hi
  · exact absurd hi (List.not_mem_nil i)
  · split at hi
    · rw [List.mem_singleton.mp hi]; rfl
    · rw [List.mem_singleton.mp hi]; rfl

theorem check_namespaces_keep (root : XmlElem) :
    ∀ i ∈ (check_namespaces root).1, keep_issue i = true := by
  intro i hi
  unfold check_namespaces at hi
  simp only at hi
  split at hi
  · exact absurd hi (List.not_mem_nil i)
  · rw [List.mem_singleton.mp hi]; rfl

theorem run_semantic_checks_keep (cs : List SemCheck) (root : XmlElem)
    (h : ∀ c ∈ cs, ∀ r, c root = .ok r → ∀ i ∈ r.1, keep_issue i = true) :
    ∀ i ∈ (run_semantic_checks cs root).1, keep_issue i = true := by
  induction cs with
  | nil => intro i hi; exact absurd hi (List.not_mem_nil i)
  | cons c rest ih =>
    intro i hi
    unfold run_semantic_checks at hi
    cases hc : c root with
    | error e =>
      rw [hc] at hi
      simp only at hi
      rw [List.mem_singleton.mp hi]; rfl
    | ok r =>
      obtain ⟨is0, u0⟩ := r
      rw [hc] at hi
      simp only at hi
      rcases List.mem_append.mp hi with h1 | h2
      · exact h c (List.mem_cons_self _ _) (is0, u0) hc i h1
      · exact ih (fun c2 hc2 => h c2 (List.mem_cons_of_mem _ hc2)) i h2

theorem semantic_checks_keep (so : SetOrder) (root : XmlElem) :
    ∀ i ∈ (run_semantic_checks (semantic_checks so) root).1, keep_issue i = true := by
  apply run_semantic_checks_keep
  intro c hc r hr
  unfold semantic_checks at hc
  simp only [List.mem_cons, List.mem_singleton, List.not_mem_nil, or_false] at hc
  rcases hc with h | h | h | h | h | h | h <;> subst h <;>
    (injection hr with hr2) <;> rw [← hr2]
  · exact check_tracked_changes_keep root
  · exact check_smart_tags_keep root
  · exact check_content_controls_keep root
  · exact check_field_codes_keep so root
  · exact check_equations_keep root
  · exact check_hyperlinks_keep root
  · exact check_namespaces_keep root

theorem check_invalid_characters_verbose (content : List Nat) (fn : String) :
    (check_invalid_characters true content fn).filter keep_issue =
      check_invalid_characters false content fn ∧
    (∀ i ∈ check_invalid_characters false content fn, keep_issue i = true) ∧
    ((check_invalid_characters true content fn).filter is_detail).length ≤ 5 ∧
    (∀ i ∈ check_invalid_characters true content fn,
      is_detail i = true → i.severity = "INFO") := by
  unfold check_invalid_characters
  cases utf8_decode content with
  | error p =>
    refine ⟨rfl, ?_, ?_, ?_⟩
    · intro i hi
      rw [List.mem_singleton.mp hi]; rfl
    · rw [List.filter_cons, if_neg (show ¬ is_detail (encoding_issue fn p) = true from
        fun h => Bool.noConfusion h)]
      simp
    · intro i hi hd
      rw [List.mem_singleton.mp hi] at hd
      exact Bool.noConfusion hd
  | ok text =>
    simp only
    split
    · exact ⟨rfl, fun i hi => absurd hi (List.not_mem_nil i),
        by simp, fun i hi _ => absurd hi (List.not_mem_nil i)⟩
    · have hmapkeep : (((scan_invalid text).take 5).map detail_issue).filter
          keep_issue = [] := by
        rw [List.filter_eq_nil_iff]
        intro a ha
        rcases List.mem_map.mp ha with ⟨item, _, heq⟩
        rw [← heq]
        exact fun h => Bool.noConfusion h
      have hmapdetail : ∀ l : List InvalidFound,
          (l.map detail_issue).filter is_detail = l.map detail_issue := by
        intro l
        rw [List.filter_eq_self]
        intro a ha
        rcases List.mem_map.mp ha with ⟨item, _, heq⟩
        rw [← heq]; rfl
      refine ⟨?_, ?_, ?_, ?_⟩
      · rw [List.filter_cons, if_pos (show keep_issue
            (invalid_chars_issue fn (scan_invalid text)) = true from rfl)]
        simp only [if_true, Bool.false_eq_true, if_false]
        rw [hmapkeep]
      · intro i hi
        rw [List.mem_singleton.mp hi]; rfl
      · rw [List.filter_cons, if_neg (show ¬ is_detail
            (invalid_chars_issue fn (scan_invalid text)) = true from fun h => Bool.noConfusion h)]
        simp only [if_true]
        rw [hmapdetail, List.length_map]
        exact List.length_take_le 5 _
      · intro i hi hd
        simp only [if_true] at hi
        rcases List.mem_cons.mp hi with h | h
        · rw [h] at hd
          exact Bool.noConfusion hd
        · rcases List.mem_map.mp h with ⟨item, _, heq⟩
          rw [← heq]
          rfl

theorem filter_detail_of_keep (l : List Issue) (h : ∀ i ∈ l, keep_issue i = true) :
    l.filter is_detail = [] := by
  rw [List.filter_eq_nil_iff]
  intro a ha hda
  rw [is_detail_eq_not_keep, h a ha] at hda
  exact Bool.noConfusion hda

theorem check_required_files_keep (entries : List ZipEntry) :
    ∀ i ∈ check_required_files entries, keep_issue i = true := by
  intro i hi
  unfold check_required_files at hi
  rcases List.mem_append.mp hi with h | h
  · rcases List.mem_filterMap.mp h with ⟨a, _, ha⟩
    split at ha
    · exact Option.noConfusion ha
    · simp only [Option.some.injEq] at ha
      rw [← ha]; rfl
  · rcases List.mem_filterMap.mp h with ⟨a, _, ha⟩
    split at ha
    · exact Option.noConfusion ha
    · simp only [Option.some.injEq] at ha
      rw [← ha]; rfl

theorem check_relationships_keep (pf : ParseFun) (so : SetOrder) (entries : List ZipEntry) :
    ∀ i ∈ (check_relationships pf so entries).1, keep_issue i = true := by
  intro i hi
  unfold check_relationships at hi
  split at hi
  · rw [List.mem_singleton.mp hi]; rfl
  · split at hi
    · rw [List.mem_singleton.mp hi]; rfl
    · simp only at hi
      rcases List.mem_append.mp hi with h | h
      · split at h
        · exact absurd h (List.not_mem_nil i)
        · rw [List.mem_singleton.mp h]; rfl
      · split at h
        · exact absurd h (List.not_mem_nil i)
        · rw [List.mem_singleton.mp h]; rfl

theorem check_embedded_objects_keep (entries : List ZipEntry) :
    ∀ i ∈ (check_embedded_objects entries).1, keep_issue i = true := by
  intro i hi
  unfold check_embedded_objects at hi
  simp only at hi
  rcases List.mem_append.mp hi with h | h
  · split at h
    · exact absurd h (List.not_mem_nil i)
    · rw [List.mem_singleton.mp h]; rfl
  · split at h
    · exact absurd h (List.not_mem_nil i)
    · rw [List.mem_singleton.mp h]; rfl

theorem analyze_document_xml_verbose (pf : ParseFun) (so : SetOrder) (entries : List ZipEntry) :
    (analyze_document_xml pf so true entries).1.filter keep_issue =
      (analyze_document_xml pf so false entries).1 ∧
    (analyze_document_xml pf so true entries).2 =
      (analyze_document_xml pf so false entries).2 ∧
    (∀ i ∈ (analyze_document_xml pf so false entries).1, keep_issue i = true) ∧
    ((analyze_document_xml pf so true entries).1.filter is_detail).length ≤ 5 ∧
    (∀ i ∈ (analyze_document_xml pf so true entries).1,
      is_detail i = true → i.severity = "INFO") := by
  unfold analyze_document_xml
  cases lookup_entry entries "word/document.xml" with
  | none =>
    refine ⟨rfl, rfl, ?_, ?_, ?_⟩
    · intro i hi
      rw [List.mem_singleton.mp hi]; rfl
    · rw [filter_detail_of_keep _ (fun a ha => by rw [List.mem_singleton.mp ha]; rfl)]
      simp
    · intro i hi hd
      rw [List.mem_singleton.mp hi] at hd
      exact Bool.noConfusion hd
  | some content =>
    obtain ⟨hfil, hnv, hlen, hinfo⟩ :=
      check_invalid_characters_verbose content "word/document.xml"
    cases hp : pf content with
    | error msg =>
      simp only [hp]
      refine ⟨?_, trivial, ?_, ?_, ?_⟩
      · rw [List.filter_append, hfil]
        congr 1
      · intro i hi
        rcases List.mem_append.mp hi with h | h
        · exact hnv i h
        · rw [List.mem_singleton.mp h]; rfl
      · rw [List.filter_append, filter_detail_of_keep [xml_parse_issue msg]
            (fun a ha => by rw [List.mem_singleton.mp ha]; rfl), List.append_nil]
        exact hlen
      · intro i hi hd
        rcases List.mem_append.mp hi with h | h
        · exact hinfo i h hd
        · rw [List.mem_singleton.mp h] at hd
          exact Bool.noConfusion hd
    | ok root =>
      simp only [hp]
      have hsem := semantic_checks_keep so root
      refine ⟨?_, trivial, ?_, ?_, ?_⟩
      · rw [List.filter_append, hfil]
        congr 1
        exact List.filter_eq_self.mpr hsem
      · intro i hi
        rcases List.mem_append.mp hi with h | h
        · exact hnv i h
        · exact hsem i h
      · rw [List.filter_append, filter_detail_of_keep _ hsem, List.append_nil]
        exact hlen
      · intro i hi hd
        rcases List.mem_append.mp hi with h | h
        · exact hinfo i h hd
        · rw [is_detail_eq_not_keep, hsem i h] at hd
          exact Bool.noConfusion hd

theorem verbose_trivial (rt rn : RunResult) (heq : rt = rn)
    (hk : ∀ i ∈ rn.issues, keep_issue i = true) :
    rt.issues.filter keep_issue = rn.issues ∧
    rt.stats = rn.stats ∧
    (∀ i ∈ rn.issues, keep_issue i = true) ∧
    ((rt.issues.filter is_detail).length ≤ 5) ∧
    (∀ i ∈ rt.issues, is_detail i = true → i.severity = "INFO") := by
  subst heq
  refine ⟨List.filter_eq_self.mpr hk, rfl, hk, ?_, ?_⟩
  · rw [filter_detail_of_keep _ hk]
    simp
  · intro i hi hd
    rw [is_detail_eq_not_keep, hk i hi] at hd
    exact Bool.noConfusion hd

theorem verbose_append_assemble
    (S R DT DF REL EMB : List Issue)
    (hS : ∀ i ∈ S, keep_issue i = true) (hR : ∀ i ∈ R, keep_issue i = true)
    (hREL : ∀ i ∈ REL, keep_issue i = true) (hEMB : ∀ i ∈ EMB, keep_issue i = true)
    (hDf : DT.filter keep_issue = DF) (hDk : ∀ i ∈ DF, keep_issue i = true)
    (hDlen : (DT.filter is_detail).length ≤ 5)
    (hDinfo : ∀ i ∈ DT, is_detail i = true → i.severity = "INFO") :
    (S ++ R ++ DT ++ REL ++ EMB).filter keep_issue = S ++ R ++ DF ++ REL ++ EMB ∧
    (∀ i ∈ S ++ R ++ DF ++ REL ++ EMB, keep_issue i = true) ∧
    ((S ++ R ++ DT ++ REL ++ EMB).filter is_detail).length ≤ 5 ∧
    (∀ i ∈ S ++ R ++ DT ++ REL ++ EMB, is_detail i = true → i.severity = "INFO") := by
  refine ⟨?_, ?_, ?_, ?_⟩
  · simp only [List.filter_append, hDf, List.filter_eq_self.mpr hS,
      List.filter_eq_self.mpr hR, List.filter_eq_self.mpr hREL,
      List.filter_eq_self.mpr hEMB]
  · intro i hi
    rcases List.mem_append.mp hi with hi | hi5
    · rcases List.mem_append.mp hi with hi | hi4
      · rcases List.mem_append.mp hi with hi | hi3
        · rcases List.mem_append.mp hi with hi1 | hi2
          · exact hS i hi1
          · exact hR i hi2
        · exact hDk i hi3
      · exact hREL i hi4
    · exact hEMB i hi5
  · simp only [List.filter_append, filter_detail_of_keep _ hS,
      filter_detail_of_keep _ hR, filter_detail_of_keep _ hREL,
      filter_detail_of_keep _ hEMB, List.append_nil, List.nil_append,
      List.length_append]
    simpa using hDlen
  · intro i hi hd
    rcases List.mem_append.mp hi with hi | hi5
    · rcases List.mem_append.mp hi with hi | hi4
      · rcases List.mem_append.mp hi with hi | hi3
        · rcases List.mem_append.mp hi with hi1 | hi2
          · rw [is_detail_eq_not_keep, hS i hi1] at hd
            exact Bool.noConfusion hd
          · rw [is_detail_eq_not_keep, hR i hi2] at hd
            exact Bool.noConfusion hd
        · exact hDinfo i hi3 hd
      · rw [is_detail_eq_not_keep, hREL i hi4] at hd
        exact Bool.noConfusion hd
    · rw [is_detail_eq_not_keep, hEMB i hi5] at hd
      exact Bool.noConfusion hd

theorem size_issues_keep (sz : Nat) :
    ∀ i ∈ (if sz > 100 * 1024 * 1024 then [file_size_warning sz] else []),
      keep_issue i = true := by
  intro i hi
  split at hi
  · rw [List.mem_singleton.mp hi]; rfl
  · exact absurd hi (List.not_mem_nil i)

theorem run_all_checks_verbose (pf : ParseFun) (so : SetOrder) (inp : PackageInput) :
    (run_all_checks pf so true inp).issues.filter keep_issue =
      (run_all_checks pf so false inp).issues ∧
    (run_all_checks pf so true inp).stats = (run_all_checks pf so false inp).stats ∧
    (∀ i ∈ (run_all_checks pf so false inp).issues, keep_issue i = true) ∧
    ((run_all_checks pf so true inp).issues.filter is_detail).length ≤ 5 ∧
    (∀ i ∈ (run_all_checks pf so true inp).issues,
      is_detail i = true → i.severity = "INFO") := by
  rcases inp with ⟨fp, pe, isf, sz, zr⟩
  cases pe with
  | false =>
    apply verbose_trivial _ _ rfl
    intro i hi
    simp [run_all_checks] at hi
    rw [hi]; rfl
  | true =>
    cases isf with
    | false =>
      apply verbose_trivial _ _ rfl
      intro i hi
      simp [run_all_checks] at hi
      rw [hi]; rfl
    | true =>
      by_cases hsz : sz = 0
      · subst hsz
        apply verbose_trivial _ _ rfl
        intro i hi
        simp [run_all_checks] at hi
        rw [hi]; rfl
      · rcases zr with ⟨entries, bad⟩ | msg | msg | ⟨entries, msg⟩
        · cases bad with
          | some b =>
            apply verbose_trivial _ _ rfl
            intro i hi
            simp [run_all_checks, hsz] at hi
            rcases hi with ⟨hbig, hi⟩ | hi <;> (rw [hi]; rfl)
          | none =>
            obtain ⟨haf, has, hanv, halen, hainfo⟩ := analyze_document_xml_verbose pf so entries
            have e1 : (run_all_checks pf so true ⟨fp, true, true, sz, .ok entries none⟩).issues =
                (if sz > 100 * 1024 * 1024 then [file_size_warning sz] else []) ++
                  check_required_files entries ++ (analyze_document_xml pf so true entries).1 ++
                  (check_relationships pf so entries).1 ++ (check_embedded_objects entries).1 := by
              unfold run_all_checks
              simp [hsz]
            have e2 : (run_all_checks pf so false ⟨fp, true, true, sz, .ok entries none⟩).issues =
                (if sz > 100 * 1024 * 1024 then [file_size_warning sz] else []) ++
                  check_required_files entries ++ (analyze_document_xml pf so false entries).1 ++
                  (check_relationships pf so entries).1 ++ (check_embedded_objects entries).1 := by
              unfold run_all_checks
              simp [hsz]
            have s1 : (run_all_checks pf so true ⟨fp, true, true, sz, .ok entries none⟩).stats =
                (check_embedded_objects entries).2 ((check_relationships pf so entries).2
                  ((analyze_document_xml pf so true entries).2
                    { file_size := some sz, file_size_mb := some (round2_mb sz),
                      zip_files := some entries.length })) := by
              unfold run_all_checks
              simp [hsz]
            have s2 : (run_all_checks pf so false ⟨fp, true, true, sz, .ok entries none⟩).stats =
                (check_embedded_objects entries).2 ((check_relationships pf so entries).2
                  ((analyze_document_xml pf so false entries).2
                    { file_size := some sz, file_size_mb := some (round2_mb sz),
                      zip_files := some entries.length })) := by
              unfold run_all_checks
              simp [hsz]
            obtain ⟨c1, c3, c4, c5⟩ := verbose_append_assemble
              (if sz > 100 * 1024 * 1024 then [file_size_warning sz] else [])
              (check_required_files entries)
              (analyze_document_xml pf so true entries).1
              (analyze_document_xml pf so false entries).1
              (check_relationships pf so entries).1
              (check_embedded_objects entries).1
              (size_issues_keep sz) (check_required_files_keep entries)
              (check_relationships_keep pf so entries) (check_embedded_objects_keep entries)
              haf hanv halen hainfo
            refine ⟨?_, ?_, ?_, ?_, ?_⟩
            · rw [e1, e2]; exact c1
            · rw [s1, s2, has]
            · rw [e2]; exact c3
            · rw [e1]; exact c4
            · rw [e1]; exact c5
        · apply verbose_trivial _ _ rfl
          intro i hi
          simp [run_all_checks, hsz] at hi
          rcases hi with ⟨hbig, hi⟩ | hi <;> (rw [hi]; rfl)
        · apply verbose_trivial _ _ rfl
          intro i hi
          simp [run_all_checks, hsz] at hi
          rcases hi with ⟨hbig, hi⟩ | hi <;> (rw [hi]; rfl)
        · apply verbose_trivial _ _ rfl
          intro i hi
          simp [run_all_checks, hsz] at hi
          rcases hi with ⟨hbig, hi⟩ | hi <;> (rw [hi]; rfl)

theorem count_severity_filter_split (s : String) (q : Issue → Bool) (l : List Issue) :
    count_severity s l =
      count_severity s (l.filter q) + count_severity s (l.filter (fun i => !q i)) := by
  induction l with
  | nil => rfl
  | cons a t ih =>
    cases hq : q a <;> by_cases hs : (a.severity == s) = true <;>
      simp [count_severity, List.filter_cons, hq, hs] at ih ⊢ <;> omega

theorem count_severity_eq_zero (s : String) (l : List Issue)
    (h : ∀ i ∈ l, i.severity ≠ s) : count_severity s l = 0 := by
  rw [count_severity, List.length_eq_zero, List.filter_eq_nil_iff]
  intro a ha hbeq
  exact h a ha (by simpa using hbeq)

theorem counts_equal_of_verbose (pf : ParseFun) (so : SetOrder) (inp : PackageInput)
    (s : String) (hs : s ≠ "INFO") :
    count_severity s (run_all_checks pf so true inp).issues =
      count_severity s (run_all_checks pf so false inp).issues := by
  obtain ⟨hfil, _, _, _, hinfo⟩ := run_all_checks_verbose pf so inp
  rw [count_severity_filter_split s keep_issue (run_all_checks pf so true inp).issues, hfil]
  have hz : count_severity s
      ((run_all_checks pf so true inp).issues.filter (fun i => !keep_issue i)) = 0 := by
    apply count_severity_eq_zero
    intro i hi
    have hmem := List.mem_filter.mp hi
    have hinf := hinfo i hmem.1 (by rw [is_detail_eq_not_keep]; exact hmem.2)
    rw [hinf]
    exact fun hcon => hs hcon.symm
  rw [hz, Nat.add_zero]

/-- C10: running the analysis with verbose mode on and off yields the same
status, the same ERROR and WARNING counts and the same statistics; verbose
mode only inserts up to five `Invalid Character Detail` issues of severity
INFO (removing them recovers exactly the non-verbose issue list, which
contains none), and changes nothing else in the report. -/
theorem verbose_mode_report_effect (pf : ParseFun) (so : SetOrder) (inp : PackageInput) :
    (get_summary (run_all_checks pf so true inp)).status =
      (get_summary (run_all_checks pf so false inp)).status ∧
    (get_summary (run_all_checks pf so true inp)).errors =
      (get_summary (run_all_checks pf so false inp)).errors ∧
    (get_summary (run_all_checks pf so true inp)).warnings =
      (get_summary (run_all_checks pf so false inp)).warnings ∧
    (get_summary (run_all_checks pf so true inp)).statistics =
      (get_summary (run_all_checks pf so false inp)).statistics ∧
    (get_summary (run_all_checks pf so true inp)).issues.filter keep_issue =
      (get_summary (run_all_checks pf so false inp)).issues ∧
    (get_summary (run_all_checks pf so false inp)).issues.filter is_detail = [] ∧
    ((get_summary (run_all_checks pf so true inp)).issues.filter is_detail).length ≤ 5 ∧
    (∀ i ∈ (get_summary (run_all_checks pf so true inp)).issues,
      is_detail i = true → i.severity = "INFO") := by
  obtain ⟨hfil, hstats, hkeep, hlen, hinfo⟩ := run_all_checks_verbose pf so inp
  have herr := counts_equal_of_verbose pf so inp "ERROR" (by decide)
  have hwarn := counts_equal_of_verbose pf so inp "WARNING" (by decide)
  refine ⟨?_, herr, hwarn, hstats, hfil, filter_detail_of_keep _ hkeep, hlen, hinfo⟩
  show (if count_severity "ERROR" (run_all_checks pf so true inp).issues > 0 then "FAIL"
        else if count_severity "WARNING" (run_all_checks pf so true inp).issues > 0
        then "WARN" else "PASS") = _
  rw [herr, hwarn]
  rfl

/-- An issue with its location dropped: the fields of the report that do not
depend on the `list(set(...))` iteration order. -/
def strip_location (i : Issue) :
    String × String × String × Option String × Option String :=
  (i.severity, i.category, i.message, i.context, i.suggestion)

theorem count_severity_map_strip (s : String) (l1 l2 : List Issue)
    (h : l1.map strip_location = l2.map strip_location) :
    count_severity s l1 = count_severity s l2 := by
  have key : ∀ l : List Issue, count_severity s l =
      ((l.map strip_location).filter (fun t => t.1 == s)).length := by
    intro l
    rw [List.filter_map, List.length_map]
    rfl
  rw [key l1, key l2, h]

theorem check_field_codes_so (so1 so2 : SetOrder) (root : XmlElem) :
    ((check_field_codes so1 root).1.map strip_location =
      (check_field_codes so2 root).1.map strip_location) ∧
    (check_field_codes so1 root).2 = (check_field_codes so2 root).2 := by
  unfold check_field_codes
  simp only
  split <;> exact ⟨rfl, rfl⟩

theorem check_relationships_so (pf : ParseFun) (so1 so2 : SetOrder)
    (entries : List ZipEntry) :
    ((check_relationships pf so1 entries).1.map strip_location =
      (check_relationships pf so2 entries).1.map strip_location) ∧
    (check_relationships pf so1 entries).2 = (check_relationships pf so2 entries).2 := by
  unfold check_relationships
  cases hl : lookup_entry entries "word/_rels/document.xml.rels" with
  | none => exact ⟨rfl, rfl⟩
  | some content =>
    cases hp : pf content with
    | error msg => simp [hp]
    | ok root =>
      simp only [hp]
      constructor
      · rw [List.map_append, List.map_append]
        congr 1
        split <;> rfl
      · trivial

theorem semantic_checks_so (so1 so2 : SetOrder) (root : XmlElem) :
    ((run_semantic_checks (semantic_checks so1) root).1.map strip_location =
      (run_semantic_checks (semantic_checks so2) root).1.map strip_location) ∧
    (run_semantic_checks (semantic_checks so1) root).2 =
      (run_semantic_checks (semantic_checks so2) root).2 := by
  obtain ⟨hm, hu⟩ := check_field_codes_so so1 so2 root
  constructor
  · simp only [run_semantic_checks, semantic_checks, List.map_append]
    rw [hm]
  · simp only [run_semantic_checks, semantic_checks]
    rw [hu]

theorem analyze_document_xml_so (pf : ParseFun) (so1 so2 : SetOrder) (v : Bool)
    (entries : List ZipEntry) :
    ((analyze_document_xml pf so1 v entries).1.map strip_location =
      (analyze_document_xml pf so2 v entries).1.map strip_location) ∧
    (analyze_document_xml pf so1 v entries).2 =
      (analyze_document_xml pf so2 v entries).2 := by
  unfold analyze_document_xml
  cases hl : lookup_entry entries "word/document.xml" with
  | none => exact ⟨rfl, rfl⟩
  | some content =>
    cases hp : pf content with
    | error msg => simp [hp]
    | ok root =>
      obtain ⟨hm, hu⟩ := semantic_checks_so so1 so2 root
      simp only [hp]
      exact ⟨by rw [List.map_append, List.map_append, hm], hu⟩

theorem run_all_checks_so (pf : ParseFun) (so1 so2 : SetOrder) (v : Bool)
    (inp : PackageInput) :
    ((run_all_checks pf so1 v inp).issues.map strip_location =
      (run_all_checks pf so2 v inp).issues.map strip_location) ∧
    (run_all_checks pf so1 v inp).stats = (run_all_checks pf so2 v inp).stats := by
  rcases inp with ⟨fp, pe, isf, sz, zr⟩
  cases pe with
  | false => exact ⟨rfl, rfl⟩
  | true =>
    cases isf with
    | false => exact ⟨rfl, rfl⟩
    | true =>
      by_cases hsz : sz = 0
      · subst hsz
        exact ⟨rfl, rfl⟩
      · rcases zr with ⟨entries, bad⟩ | msg | msg | ⟨entries, msg⟩
        · cases bad with
          | some b =>
            have h : run_all_checks pf so1 v ⟨fp, true, true, sz, .ok entries (some b)⟩ =
                run_all_checks pf so2 v ⟨fp, true, true, sz, .ok entries (some b)⟩ := by
              unfold run_all_checks
              simp [hsz]
            exact ⟨by rw [h], by rw [h]⟩
          | none =>
            obtain ⟨hm, hu⟩ := analyze_document_xml_so pf so1 so2 v entries
            obtain ⟨hrm, hru⟩ := check_relationships_so pf so1 so2 entries
            have e1 : (run_all_checks pf so1 v ⟨fp, true, true, sz, .ok entries none⟩).issues =
                (if sz > 100 * 1024 * 1024 then [file_size_warning sz] else []) ++
                  check_required_files entries ++ (analyze_document_xml pf so1 v entries).1 ++
                  (check_relationships pf so1 entries).1 ++ (check_embedded_objects entries).1 := by
              unfold run_all_checks
              simp [hsz]
            have e2 : (run_all_checks pf so2 v ⟨fp, true, true, sz, .ok entries none⟩).issues =
                (if sz > 100 * 1024 * 1024 then [file_size_warning sz] else []) ++
                  check_required_files entries ++ (analyze_document_xml pf so2 v entries).1 ++
                  (check_relationships pf so2 entries).1 ++ (check_embedded_objects entries).1 := by
              unfold run_all_checks
              simp [hsz]
            have s1 : (run_all_checks pf so1 v ⟨fp, true, true, sz, .ok entries none⟩).stats =
                (check_embedded_objects entries).2 ((check_relationships pf so1 entries).2
                  ((analyze_document_xml pf so1 v entries).2
                    { file_size := some sz, file_size_mb := some (round2_mb sz),
                      zip_files := some entries.length })) := by
              unfold run_all_checks
              simp [hsz]
            have s2 : (run_all_checks pf so2 v ⟨fp, true, true, sz, .ok entries none⟩).stats =
                (check_embedded_objects entries).2 ((check_relationships pf so2 entries).2
                  ((analyze_document_xml pf so2 v entries).2
                    { file_size := some sz, file_size_mb := some (round2_mb sz),
                      zip_files := some entries.length })) := by
              unfold run_all_checks
              simp [hsz]
            constructor
            · rw [e1, e2]
              simp only [List.map_append]
              rw [hm, hrm]
            · rw [s1, s2, hu, hru]
        · have h : run_all_checks pf so1 v ⟨fp, true, true, sz, .badZip msg⟩ =
              run_all_checks pf so2 v ⟨fp, true, true, sz, .badZip msg⟩ := by
            unfold run_all_checks
            simp [hsz]
          exact ⟨by rw [h], by rw [h]⟩
        · have h : run_all_checks pf so1 v ⟨fp, true, true, sz, .openError msg⟩ =
              run_all_checks pf so2 v ⟨fp, true, true, sz, .openError msg⟩ := by
            unfold run_all_checks
            simp [hsz]
          exact ⟨by rw [h], by rw [h]⟩
        · have h : run_all_checks pf so1 v ⟨fp, true, true, sz, .integrityError entries msg⟩ =
              run_all_checks pf so2 v ⟨fp, true, true, sz, .integrityError entries msg⟩ := by
            unfold run_all_checks
            simp [hsz]
          exact ⟨by rw [h], by rw [h]⟩

/-- C9 amended: two runs of the analysis on byte-identical input (differing
only in the process's set-iteration order) produce reports equal in status,
per-severity counts, statistics, and the ordered issue list up to each
issue's location field; the locations of the Field Codes and Broken
References issues may list their deduplicated types in different orders. -/
theorem determinism_amended (pf : ParseFun) (so1 so2 : SetOrder) (v : Bool)
    (inp : PackageInput) :
    (get_summary (run_all_checks pf so1 v inp)).status =
      (get_summary (run_all_checks pf so2 v inp)).status ∧
    (get_summary (run_all_checks pf so1 v inp)).errors =
      (get_summary (run_all_checks pf so2 v inp)).errors ∧
    (get_summary (run_all_checks pf so1 v inp)).warnings =
      (get_summary (run_all_checks pf so2 v inp)).warnings ∧
    (get_summary (run_all_checks pf so1 v inp)).info =
      (get_summary (run_all_checks pf so2 v inp)).info ∧
    (get_summary (run_all_checks pf so1 v inp)).statistics =
      (get_summary (run_all_checks pf so2 v inp)).statistics ∧
    (get_summary (run_all_checks pf so1 v inp)).issues.map strip_location =
      (get_summary (run_all_checks pf so2 v inp)).issues.map strip_location := by
  obtain ⟨hm, hs⟩ := run_all_checks_so pf so1 so2 v inp
  have he := count_severity_map_strip "ERROR" _ _ hm
  have hw := count_severity_map_strip "WARNING" _ _ hm
  have hinf := count_severity_map_strip "INFO" _ _ hm
  refine ⟨?_, he, hw, hinf, hs, hm⟩
  show (if count_severity "ERROR" (run_all_checks pf so1 v inp).issues > 0 then "FAIL"
        else if count_severity "WARNING" (run_all_checks pf so1 v inp).issues > 0
        then "WARN" else "PASS") = _
  rw [he, hw]
  rfl

/-- `list(set(xs))` outcome keeping first-occurrence order. -/
def so_a : SetOrder := fun xs => xs.dedup

/-- `list(set(xs))` outcome in the reversed order (another valid hash
ordering of the same set). -/
def so_b : SetOrder := fun xs => xs.dedup.reverse

/-- A parsed document with two field-instruction elements, classified as
Table of Contents and Page Number. -/
def doc_c9 : XmlElem :=
  .node (qtag ns_w "document") [] none
    [.node (qtag ns_w "instrText") [] (some " TOC ") [],
     .node (qtag ns_w "instrText") [] (some " PAGE ") []]

def pf_c9 : ParseFun := fun _ => .ok doc_c9

def inp_c9 : PackageInput :=
  { filepath := "d.docx", pathExists := true, isFile := true, size := 10,
    zipResult := .ok [{ name := "word/document.xml", data := [60] }] none }

/-- C9 counterexample: both orderings are valid `list(set(...))` outcomes for
one and the same byte-identical input, yet the two runs' reports differ — the
Field Codes issue's location lists the deduplicated field types in different
orders.  Separate runs of the analysis are therefore not equal in every
issue's location field. -/
theorem determinism_cex :
    IsSetOrder so_a ∧ IsSetOrder so_b ∧
    get_summary (run_all_checks pf_c9 so_a false inp_c9) ≠
      get_summary (run_all_checks pf_c9 so_b false inp_c9) := by
  refine ⟨fun xs => List.Perm.refl _, fun xs => (xs.dedup).reverse_perm, ?_⟩
  decide

/-- Witness for `status_derivation` at a concrete run. -/
theorem status_derivation_witness :
    ((get_summary (run_all_checks pf_c9 so_a false inp_c9)).status = "FAIL" ↔
      ∃ i ∈ (get_summary (run_all_checks pf_c9 so_a false inp_c9)).issues,
        i.severity = "ERROR") ∧
    ((get_summary (run_all_checks pf_c9 so_a false inp_c9)).status = "WARN" ↔
      (¬ ∃ i ∈ (get_summary (run_all_checks pf_c9 so_a false inp_c9)).issues,
        i.severity = "ERROR") ∧
      ∃ i ∈ (get_summary (run_all_checks pf_c9 so_a false inp_c9)).issues,
        i.severity = "WARNING") ∧
    ((get_summary (run_all_checks pf_c9 so_a false inp_c9)).status = "PASS" ↔
      (¬ ∃ i ∈ (get_summary (run_all_checks pf_c9 so_a false inp_c9)).issues,
        i.severity = "ERROR") ∧
      ¬ ∃ i ∈ (get_summary (run_all_checks pf_c9 so_a false inp_c9)).issues,
        i.severity = "WARNING") :=
  status_derivation pf_c9 so_a false inp_c9

/-- Witness for `handle_release_amended` at a concrete corrupted-member
input. -/
theorem handle_release_amended_witness :
    ((run_all_checks pf_stub so_id true bad_member_input).zip_opened = true ∧
     (run_all_checks pf_stub so_id true bad_member_input).zip_closed = false) ↔
    (bad_member_input.pathExists = true ∧ bad_member_input.isFile = true ∧
     bad_member_input.size ≠ 0 ∧
     ((∃ entries bad, bad_member_input.zipResult = .ok entries (some bad)) ∨
      (∃ entries msg, bad_member_input.zipResult = .integrityError entries msg))) :=
  handle_release_amended pf_stub so_id true bad_member_input

/-- A small relationship part: one external entry and one unresolved internal
entry. -/
def rels_c8 : List XmlElem :=
  [.node (qtag ns_rel "Relationship")
     [("Id", "rId1"), ("Type", ns_r ++ "/hyperlink"),
      ("Target", "http://example.com/a"), ("TargetMode", "External")] none [],
   .node (qtag ns_rel "Relationship")
     [("Id", "rId2"), ("Type", ns_r ++ "/image"),
      ("Target", "media/missing.png")] none []]

def names_c8 : List String := ["word/document.xml"]

/-- Witness for `relationship_classification` at a concrete entry list. -/
theorem relationship_classification_witness :
    (rel_fold names_c8 rels_c8).2 =
      (rels_c8.filter (fun rel =>
        rel_target_mode rel == "External" ||
        str_starts_with (rel_target rel) "http")).map rel_target ∧
    (rel_fold names_c8 rels_c8).1 =
      rels_c8.filterMap (fun rel =>
        if rel_target_mode rel == "External" ||
           str_starts_with (rel_target rel) "http" then none
        else if names_c8.contains (replace_backslash (normpath
            (if str_starts_with (rel_target rel) "/" then str_drop (rel_target rel) 1
             else "word/" ++ rel_target rel))) then none
        else if names_c8.contains (lstrip_dot_slash (rel_target rel)) then none
        else some { target := rel_target rel,
                    rtype := if rel_type_attr rel == "" then "unknown"
                             else ((str_split_on (rel_type_attr rel) "/").getLastD "") }) :=
  relationship_classification names_c8 rels_c8

/-- Witness for `determinism_amended` at a concrete input and two concrete
set orderings. -/
theorem determinism_amended_witness :
    (get_summary (run_all_checks pf_c9 so_a false inp_c9)).status =
      (get_summary (run_all_checks pf_c9 so_b false inp_c9)).status ∧
    (get_summary (run_all_checks pf_c9 so_a false inp_c9)).errors =
      (get_summary (run_all_checks pf_c9 so_b false inp_c9)).errors ∧
    (get_summary (run_all_checks pf_c9 so_a false inp_c9)).warnings =
      (get_summary (run_all_checks pf_c9 so_b false inp_c9)).warnings ∧
    (get_summary (run_all_checks pf_c9 so_a false inp_c9)).info =
      (get_summary (run_all_checks pf_c9 so_b false inp_c9)).info ∧
    (get_summary (run_all_checks pf_c9 so_a false inp_c9)).statistics =
      (get_summary (run_all_checks pf_c9 so_b false inp_c9)).statistics ∧
    (get_summary (run_all_checks pf_c9 so_a false inp_c9)).issues.map strip_location =
      (get_summary (run_all_checks pf_c9 so_b false inp_c9)).issues.map strip_location :=
  determinism_amended pf_c9 so_a so_b false inp_c9

/-- Witness for `verbose_mode_report_effect` at a concrete input. -/
theorem verbose_mode_report_effect_witness :
    (get_summary (run_all_checks pf_stub so_id true missing_doc_input)).status =
      (get_summary (run_all_checks pf_stub so_id false missing_doc_input)).status ∧
    (get_summary (run_all_checks pf_stub so_id true missing_doc_input)).errors =
      (get_summary (run_all_checks pf_stub so_id false missing_doc_input)).errors ∧
    (get_summary (run_all_checks pf_stub so_id true missing_doc_input)).warnings =
      (get_summary (run_all_checks pf_stub so_id false missing_doc_input)).warnings ∧
    (get_summary (run_all_checks pf_stub so_id true missing_doc_input)).statistics =
      (get_summary (run_all_checks pf_stub so_id false missing_doc_input)).statistics ∧
    (get_summary (run_all_checks pf_stub so_id true missing_doc_input)).issues.filter
        keep_issue =
      (get_summary (run_all_checks pf_stub so_id false missing_doc_input)).issues ∧
    (get_summary (run_all_checks pf_stub so_id false missing_doc_input)).issues.filter
        is_detail = [] ∧
    ((get_summary (run_all_checks pf_stub so_id true missing_doc_input)).issues.filter
        is_detail).length ≤ 5 ∧
    (∀ i ∈ (get_summary (run_all_checks pf_stub so_id true missing_doc_input)).issues,
      is_detail i = true → i.severity = "INFO") :=
  verbose_mode_report_effect pf_stub so_id missing_doc_input
